import Mathlib

/-!
# cursor2api

A shallow embedding of the browser service (`internal/browser/browser.go`):
the token record and its refresh, the two relays, and the reader/writer
lock protocol that guards the token record; of the request dispatcher of
the tool-call protocol server (`internal/mcp/server.go`); and of the
command extraction of `internal/tools/intent.go`.

Everything the remote browser decides (whether a page opens, whether a
navigation succeeds, what the upstream answers, how much of a stream is
served before the 90 second timer fires) is an explicit environment
argument of the operation; the Go control flow, including panics raised by
the `Must*` helpers and the deferred calls, is translated as written.
-/

namespace Cursor2Api

/-! ## Go values -/

/-- A Go `error` value: `none` is `nil`, `some m` an error whose message is `m`. -/
abbrev GoError := Option String

/-- How a Go call ends: it returns a value, or it panics (a `Must*` helper
received an error, or a nil pointer was dereferenced). -/
inductive Outcome (α : Type) where
  | returned (v : α)
  | panicked (msg : String)
  deriving DecidableEq, Repr

/-! ## Time (`time.Time`, `time.Duration`) -/

/-! A `time.Time` is an integer: the wall-clock instant in nanoseconds
relative to the Unix epoch. A `time.Duration` is an integer in the signed
64 bit range: a count of nanoseconds. -/

/-- The least `time.Duration`. -/
def minDuration : Int := -(2 ^ 63)

/-- The greatest `time.Duration`. -/
def maxDuration : Int := 2 ^ 63 - 1

def Millisecond : Int := 1000000

def Second : Int := 1000 * Millisecond

def Minute : Int := 60 * Second

/-- The zero `time.Time` (January 1, year 1, 00:00 UTC), the value of
`lastFetch` in a fresh `Service`. -/
def zeroTime : Int := -62135596800 * 1000000000

/-- `t.Sub(u)`: the difference `t - u`, saturated to the range of a
`time.Duration`. -/
def timeSub (t u : Int) : Int :=
  if t - u > maxDuration then maxDuration
  else if t - u < minDuration then minDuration
  else t - u

/-- `time.Since(t)` evaluated when the clock reads `now`. -/
def timeSince (now t : Int) : Int := timeSub now t

/-! ## Browser and service state -/

/-- The remote browser as seen through the control channel: the handles of
its open pages and the next fresh handle. -/
structure Browser where
  pages : List Nat
  nextPage : Nat
  deriving DecidableEq, Repr

/-- `browser.Page`: a new page is created and its handle returned. -/
def Browser.newPage (b : Browser) : Nat × Browser :=
  (b.nextPage, { pages := b.nextPage :: b.pages, nextPage := b.nextPage + 1 })

/-- `page.Close()`: the page is gone from the browser afterwards. -/
def Browser.closePage (b : Browser) (p : Nat) : Browser :=
  { b with pages := b.pages.erase p }

/-- The fields of `type Service struct` (the lock `mu` is modelled
separately, in the lock protocol section). `browser = none` is the nil
handle. -/
structure Service where
  browser : Option Browser
  page : Option Nat
  xIsHuman : String
  lastFetch : Int
  deriving DecidableEq, Repr

/-- The service as `&Service{}` leaves it before `init` has run. -/
def Service.zero : Service :=
  { browser := none, page := none, xIsHuman := "", lastFetch := zeroTime }

/-- Number of pages open in the service's browser (0 for the nil handle). -/
def Service.openPages (s : Service) : Nat :=
  match s.browser with
  | none => 0
  | some b => b.pages.length

/-- Effects of a call that are visible outside the returned value, in
program order. -/
inductive Event where
  | lock
  | unlock
  | rlock
  | runlock
  | openPage (p : Nat)
  | closePage (p : Nat)
  | routerRun
  | routerStop
  | navigate (url : String)
  | sleep (d : Int)
  | click
  | input (text : String)
  | press (key : Nat)
  | commit (token : String) (t : Int)
  | goRefreshToken
  | evaluate
  | onChunk (chunk : String)
  | recvDone
  | timerFired
  deriving DecidableEq, Repr

/-- The result of running one operation of the service. -/
structure Run (α : Type) where
  out : Outcome α
  state : Service
  trace : List Event

/-! ## Request interception (`RefreshToken`, lines 93-105) -/

/-- A request paused by the hijack router: its URL and its header map
(`ctx.Request.Headers()`, a Go map from header name to value). -/
structure Request where
  url : String
  headers : List (String × String)
  deriving DecidableEq, Repr

/-- Wildcard matching of a router pattern against a URL: `*` stands for any
run of characters, `?` for any one character, every other character for
itself. -/
def globMatch : List Char → List Char → Bool
  | [], s => s.isEmpty
  | a :: p, s =>
    if a = '*' then starMatch (globMatch p) s
    else
      match s with
      | [] => false
      | c :: rest => (a = '?' || a = c) && globMatch p rest
where
  /-- A star followed by the continuation `k`: `k` accepts some suffix. -/
  starMatch (k : List Char → Bool) : List Char → Bool
    | [] => k []
    | c :: rest => k (c :: rest) || starMatch k rest

/-- The pattern given to `router.MustAdd`. -/
def chatPattern : String := "*/api/chat*"

/-- The body of the hijack handler, as a function of the captured token so
far and the headers of the paused request:
`if token, ok := headers["x-is-human"]; ok { capturedToken = token.String() }`. -/
def hijackHandler (capturedToken : String) (headers : List (String × String)) : String :=
  match headers.lookup "x-is-human" with
  | some token => token
  | none => capturedToken

/-- Equality of two header names when letter case is ignored, the
comparison the specification's interception predicate names. -/
def equalFold (a b : String) : Bool :=
  a.toList.map Char.toLower == b.toList.map Char.toLower

/-- The router while it runs: every request whose URL matches the pattern is
handed to the handler (and then continued unmodified); the others pass by. -/
def routerStep (capturedToken : String) (r : Request) : String :=
  if globMatch chatPattern.toList r.url.toList then hijackHandler capturedToken r.headers
  else capturedToken

/-- The value of `capturedToken` after the page has issued `reqs`, starting
from `var capturedToken string`. -/
def routerCapture (reqs : List Request) : String :=
  reqs.foldl routerStep ""

/-! ## `RefreshToken` -/

/-- What the browser answers during one `RefreshToken` call. An `Option
String` field is the error of that call (`none`: it succeeded). -/
structure RefreshEnv where
  mustPage : Option String
  mustSetUserAgent : Option String
  mustEvalOnNewDocument : Option String
  mustAdd : Option String
  navigate : Option String
  mustWaitLoad : Option String
  /-- the first `Element` lookup found the ask button -/
  askFound : Bool
  /-- the fallback `Element` lookup found a text input -/
  inputFound : Bool
  /-- the requests the page issued while the router was running -/
  requests : List Request
  /-- the reading of `time.Now()` at line 136 -/
  now : Int

def bootstrapURL : String := "https://cursor.com/cn/docs"

/-- Lines 116-128: the best-effort probe of the chat UI. -/
def probeUI (env : RefreshEnv) : List Event :=
  if env.askFound || env.inputFound then
    [.click, .sleep (1 * Second), .input "hi", .sleep (500 * Millisecond), .press 13]
  else []

/-- Lines 78-139 of `RefreshToken`, between `s.mu.Lock()` and the deferred
`s.mu.Unlock()`. -/
def RefreshToken.body (s : Service) (env : RefreshEnv) : Run GoError :=
  -- if s.page != nil { s.page.Close() }
  let t0 : List Event :=
    match s.page with
    | some old => [.closePage old]
    | none => []
  match s.browser with
  | none => { out := .panicked "invalid memory address or nil pointer dereference",
              state := s, trace := t0 }
  | some b =>
    let b0 : Browser :=
      match s.page with
      | some old => b.closePage old
      | none => b
    let s0 : Service := { s with browser := some b0 }
    -- s.page = s.browser.MustPage()
    match env.mustPage with
    | some e => { out := .panicked e, state := s0, trace := t0 }
    | none =>
      let (p, b1) := b0.newPage
      let s1 : Service := { s0 with browser := some b1, page := some p }
      let t1 := t0 ++ [.openPage p]
      match env.mustSetUserAgent with
      | some e => { out := .panicked e, state := s1, trace := t1 }
      | none =>
        match env.mustEvalOnNewDocument with
        | some e => { out := .panicked e, state := s1, trace := t1 }
        | none =>
          match env.mustAdd with
          | some e => { out := .panicked e, state := s1, trace := t1 }
          | none =>
            -- go router.Run()
            let t2 := t1 ++ [.routerRun, .navigate bootstrapURL]
            match env.navigate with
            | some e =>
              { out := .returned (some ("导航失败: " ++ e)), state := s1,
                trace := t2 ++ [.routerStop] }
            | none =>
              match env.mustWaitLoad with
              | some e => { out := .panicked e, state := s1, trace := t2 }
              | none =>
                let t3 := t2 ++ [.sleep (5 * Second)] ++ probeUI env
                  ++ [.sleep (8 * Second), .routerStop]
                let capturedToken := routerCapture env.requests
                if capturedToken ≠ "" then
                  { out := .returned none,
                    state := { s1 with xIsHuman := capturedToken, lastFetch := env.now },
                    trace := t3 ++ [.commit capturedToken env.now] }
                else
                  { out := .returned none, state := s1, trace := t3 }

/-- `func (s *Service) RefreshToken() error`. -/
def RefreshToken (s : Service) (env : RefreshEnv) : Run GoError :=
  let r := RefreshToken.body s env
  { r with trace := .lock :: r.trace ++ [.unlock] }

/-! ## `GetXIsHuman` -/

/-- The staleness test of line 148. -/
def needsRefresh (s : Service) (now : Int) : Bool :=
  decide (timeSince now s.lastFetch > 30 * Minute) && decide (s.xIsHuman ≠ "")

/-- `func (s *Service) GetXIsHuman() string`, called when the clock reads
`now`. The event `goRefreshToken` is the statement `go s.RefreshToken()`. -/
def GetXIsHuman (s : Service) (now : Int) : Run String :=
  { out := .returned s.xIsHuman,
    state := s,
    trace := [.rlock] ++ (if needsRefresh s now then [.goRefreshToken] else []) ++ [.runlock] }

/-- The service once `init` has connected it to the browser `b`: no page,
no token, zero capture time. -/
def Service.fresh (b : Browser) : Service :=
  { browser := some b, page := none, xIsHuman := "", lastFetch := zeroTime }

/-- The service after a sequence of `RefreshToken` calls, one per
environment, whatever way each of them ended. -/
def refreshAll (s : Service) (envs : List RefreshEnv) : Service :=
  envs.foldl (fun st env => (RefreshToken st env).state) s

/-! ## Chat requests -/

/-- `type CursorContext struct`. -/
structure CursorContext where
  type : String
  content : String
  filePath : String
  deriving DecidableEq, Repr

/-- `type CursorPart struct`. -/
structure CursorPart where
  type : String
  text : String
  deriving DecidableEq, Repr

/-- `type CursorMessage struct`. -/
structure CursorMessage where
  parts : List CursorPart
  id : String
  role : String
  deriving DecidableEq, Repr

/-- `type CursorChatRequest struct`. -/
structure CursorChatRequest where
  context : List CursorContext
  model : String
  id : String
  messages : List CursorMessage
  trigger : String
  deriving DecidableEq, Repr

/-! ## The upstream, as the in-page scripts see it -/

/-- How a JavaScript promise ends: fulfilled with a value, rejected with an
error whose `message` is given, or never settled. -/
inductive Settled (α : Type) where
  | resolved (v : α)
  | rejected (message : String)
  | pending
  deriving DecidableEq, Repr

/-- What the read after the last chunk of a body stream does: it reports
`done`, it rejects, or it never settles. -/
inductive StreamEnd where
  | done
  | failed (message : String)
  | pending
  deriving DecidableEq, Repr

/-- The `Response` that `fetch` resolves with. `text` is how
`response.text()` settles; `chunks` are the decoded fragments that
successive `reader.read()` calls deliver, and `streamEnd` what follows
them. -/
structure Response where
  ok : Bool
  status : Nat
  text : Settled String
  chunks : List String
  streamEnd : StreamEnd
  deriving DecidableEq, Repr

/-! ## `SendRequest` -/

/-- What the browser answers during one `SendRequest` call. -/
structure BufferedEnv where
  mustPage : Option String
  mustSetUserAgent : Option String
  mustEvalOnNewDocument : Option String
  mustNavigate : Option String
  mustWaitLoad : Option String
  /-- an error of `Evaluate` that keeps the script from running -/
  evaluate : Option String
  /-- how `fetch` settles -/
  upstream : Settled Response
  /-- the promise of the script settled before the 90 second deadline -/
  inTime : Bool
  /-- how `Evaluate` renders a rejection with the given message as an error -/
  evalError : String → String

/-- The promise built by the script of lines 206-222. -/
def bufferedScript : Settled Response → Settled String
  | .rejected m => .rejected m
  | .pending => .pending
  | .resolved r =>
    match r.text with
    | .resolved text => if !r.ok then .rejected text else .resolved text
    | .rejected m => .rejected m
    | .pending => .pending

/-- `page.Timeout(90 * time.Second).Evaluate(rod.Eval(script).ByPromise())`:
the value the promise resolved with, or an error. -/
def evaluateByPromise (env : BufferedEnv) : Except String String :=
  match env.evaluate with
  | some e => .error e
  | none =>
    match bufferedScript env.upstream with
    | .resolved text => if env.inTime then .ok text else .error "context deadline exceeded"
    | .rejected m =>
      if env.inTime then .error (env.evalError m) else .error "context deadline exceeded"
    | .pending => .error "context deadline exceeded"

/-- `func (s *Service) SendRequest(req CursorChatRequest) (string, error)`. -/
def SendRequest (s : Service) (_req : CursorChatRequest) (env : BufferedEnv) :
    Run (String × GoError) :=
  match s.browser with
  | none => { out := .returned ("", some "浏览器未初始化"), state := s, trace := [] }
  | some b =>
    match env.mustPage with
    | some e => { out := .panicked e, state := s, trace := [] }
    | none =>
      let (p, b1) := b.newPage
      -- defer page.Close()
      let fin (out : Outcome (String × GoError)) (t : List Event) : Run (String × GoError) :=
        { out := out, state := { s with browser := some (b1.closePage p) },
          trace := .openPage p :: (t ++ [.closePage p]) }
      match env.mustSetUserAgent with
      | some e => fin (.panicked e) []
      | none =>
        match env.mustEvalOnNewDocument with
        | some e => fin (.panicked e) []
        | none =>
          match env.mustNavigate with
          | some e => fin (.panicked e) [.navigate bootstrapURL]
          | none =>
            match env.mustWaitLoad with
            | some e => fin (.panicked e) [.navigate bootstrapURL]
            | none =>
              match evaluateByPromise env with
              | .error e =>
                fin (.returned ("", some ("执行失败: " ++ e))) [.navigate bootstrapURL, .evaluate]
              | .ok text =>
                fin (.returned (text, none)) [.navigate bootstrapURL, .evaluate]

/-! ## `SendStreamRequest` -/

/-- A call from the page to one of the two functions exposed by the host. -/
inductive BridgeCall where
  | goStreamCallback (chunk : String)
  | goStreamDone (msg : String)
  deriving DecidableEq, Repr

/-- `function read()`, lines 286-298: each chunk goes to `goStreamCallback`
and the loop reads again; `done` ends it with `goStreamDone("")`; a failed
read ends it with `goStreamDone(err.message)`. -/
def readLoop : List String → StreamEnd → List BridgeCall
  | [], .done => [.goStreamDone ""]
  | [], .failed m => [.goStreamDone m]
  | [], .pending => []
  | chunk :: rest, e => .goStreamCallback chunk :: readLoop rest e

/-- The callback of `.then(response => ...)`, lines 276-300: the bridge
calls it causes, and how the promise of the `.then` settles. In the
non-OK branch the callback returns `response.text().then(...)`, whose
handler calls `goStreamDone(text)` and then throws `new Error(text)`. -/
def onResponse (r : Response) : List BridgeCall × Settled Unit :=
  if !r.ok then
    match r.text with
    | .resolved text => ([.goStreamDone text], .rejected text)
    | .rejected m => ([], .rejected m)
    | .pending => ([], .pending)
  else
    (readLoop r.chunks r.streamEnd, .resolved ())

/-- The final `.catch(err => window.goStreamDone(err.message))`, lines
301-303, applied to the promise in front of it. -/
def onCatch : Settled Unit → List BridgeCall
  | .rejected m => [.goStreamDone m]
  | .resolved _ => []
  | .pending => []

/-- The in-page script of lines 270-304: the bridge calls it makes, in
order. -/
def streamScript : Settled Response → List BridgeCall
  | .rejected m => onCatch (.rejected m)
  | .pending => []
  | .resolved r => (onResponse r).1 ++ onCatch (onResponse r).2

/-- The value the `goStreamDone` bridge sends on the channel `done`, lines
254-262. -/
def goStreamDone (errMsg : String) : GoError :=
  if errMsg ≠ "" then some errMsg else none

/-- The chunks of the `goStreamCallback` calls among bridge calls, in the
order of the calls. -/
def fragmentCalls : List BridgeCall → List String
  | [] => []
  | .goStreamCallback chunk :: rest => chunk :: fragmentCalls rest
  | .goStreamDone _ :: rest => fragmentCalls rest

/-- The argument of the first `goStreamDone` call among bridge calls. -/
def firstDone : List BridgeCall → Option String
  | [] => none
  | .goStreamDone msg :: _ => some msg
  | .goStreamCallback _ :: rest => firstDone rest

/-- The bridge calls that have reached the host when the 90 second timer
fires: the first `served` calls the page made. A call that has reached the
host has not thereby run its Go function. -/
def arrived (calls : List BridgeCall) (served : Nat) : List BridgeCall :=
  calls.take served

/-- Modelled from the spec: how the control channel (the go-rod library
behind `MustExpose`, which is not among the sources) serves the fragment
bridge. The spec has the fragment bridge as an ordered multi-value channel
and the completion bridge as a separate one-shot signal: the fragment calls
that reached the host run `onChunk` one at a time in the page's order, and
`ran` of them have run when the wait of the caller ends. The completion
signal is served on its own; the sources have nothing that makes it wait
for the fragment calls. -/
def delivered (calls : List BridgeCall) (ran : Nat) : List String :=
  (fragmentCalls calls).take ran

/-- The host while it waits (lines 250-253 and 311-316), given the bridge
calls that reached it and the number of fragment calls that have run:
each of these ran `onChunk`; the first `goStreamDone` fills the one-slot
channel `done` and the `select` returns its value; when no `goStreamDone`
has reached the host, the `select` takes the timer branch. -/
def awaitDone (calls : List BridgeCall) (ran : Nat) : List Event × GoError :=
  match firstDone calls with
  | some msg => ((delivered calls ran).map .onChunk ++ [.recvDone], goStreamDone msg)
  | none => ((delivered calls ran).map .onChunk ++ [.timerFired], some "请求超时")

/-- What the browser answers during one `SendStreamRequest` call. -/
structure StreamEnv where
  mustPage : Option String
  mustSetUserAgent : Option String
  mustEvalOnNewDocument : Option String
  exposeCallback : Option String
  exposeDone : Option String
  mustNavigate : Option String
  mustWaitLoad : Option String
  /-- the error of `page.Evaluate`, which starts the script -/
  evaluate : Option String
  /-- how `fetch` settles -/
  upstream : Settled Response
  /-- how many bridge calls reach the host before the 90 second timer fires -/
  served : Nat
  /-- how many fragment calls have run `onChunk` when the wait ends -/
  ran : Nat

/-- `func (s *Service) SendStreamRequest(req CursorChatRequest, onChunk func(chunk string)) error`.
Invocations of `onChunk` are the `onChunk` events of the trace. -/
def SendStreamRequest (s : Service) (_req : CursorChatRequest) (env : StreamEnv) :
    Run GoError :=
  match s.browser with
  | none => { out := .returned (some "浏览器未初始化"), state := s, trace := [] }
  | some b =>
    match env.mustPage with
    | some e => { out := .panicked e, state := s, trace := [] }
    | none =>
      let (p, b1) := b.newPage
      -- defer page.Close()
      let fin (out : Outcome GoError) (t : List Event) : Run GoError :=
        { out := out, state := { s with browser := some (b1.closePage p) },
          trace := .openPage p :: (t ++ [.closePage p]) }
      match env.mustSetUserAgent with
      | some e => fin (.panicked e) []
      | none =>
        match env.mustEvalOnNewDocument with
        | some e => fin (.panicked e) []
        | none =>
          match env.exposeCallback with
          | some e => fin (.panicked e) []
          | none =>
            match env.exposeDone with
            | some e => fin (.panicked e) []
            | none =>
              match env.mustNavigate with
              | some e => fin (.panicked e) [.navigate bootstrapURL]
              | none =>
                match env.mustWaitLoad with
                | some e => fin (.panicked e) [.navigate bootstrapURL]
                | none =>
                  match env.evaluate with
                  | some e =>
                    fin (.returned (some ("执行失败: " ++ e))) [.navigate bootstrapURL, .evaluate]
                  | none =>
                    let w := awaitDone (arrived (streamScript env.upstream) env.served) env.ran
                    fin (.returned w.2) ([.navigate bootstrapURL, .evaluate] ++ w.1)

/-- The chunks `onChunk` was invoked with, in order of invocation. -/
def onChunkCalls : List Event → List String
  | [] => []
  | .onChunk c :: rest => c :: onChunkCalls rest
  | _ :: rest => onChunkCalls rest

/-- Number of `goStreamDone` calls among the bridge calls. -/
def doneCalls : List BridgeCall → Nat
  | [] => 0
  | .goStreamDone _ :: rest => doneCalls rest + 1
  | .goStreamCallback _ :: rest => doneCalls rest

/-! ## Lock protocol of the token record (`s.mu`) -/

/-- A `sync.RWMutex`: whether it is held exclusively, and by how many
readers it is held shared. -/
structure RWMutex where
  writer : Bool
  readers : Nat
  deriving DecidableEq, Repr

/-- Where a goroutine running `RefreshToken` stands. `waitLock`: blocked in
`s.mu.Lock()`. `setup`: lines 78-105. `navigating`: line 108. `settling`:
lines 113-114. `probing`: lines 117-128. `window`: line 131. `commit`:
lines 132-137. From `setup` to `commit` the goroutine is between
`s.mu.Lock()` and the deferred `s.mu.Unlock()`. -/
inductive RefreshPc where
  | idle
  | waitLock
  | setup
  | navigating
  | settling
  | probing
  | window
  | commit
  deriving DecidableEq, Repr

/-- Where a goroutine running `GetXIsHuman` stands. `waitRLock`: blocked in
`s.mu.RLock()`. `reading`: lines 148-152, between `RLock` and the deferred
`RUnlock`. -/
inductive ReaderPc where
  | idle
  | waitRLock
  | reading
  deriving DecidableEq, Repr

/-- One refreshing goroutine and one reading goroutine sharing `s.mu`. -/
structure Sys where
  mu : RWMutex
  refresh : RefreshPc
  reader : ReaderPc
  deriving DecidableEq, Repr

/-- No call in progress, lock free. -/
def Sys.init : Sys :=
  { mu := { writer := false, readers := 0 }, refresh := .idle, reader := .idle }

/-- `Lock` can be taken: nobody holds the mutex. -/
def canLock (st : Sys) : Bool :=
  !st.mu.writer && st.mu.readers == 0

/-- `RLock` can be taken: the mutex is not held exclusively and no `Lock`
call is waiting for it. -/
def canRLock (st : Sys) : Bool :=
  !st.mu.writer && decide (st.refresh ≠ .waitLock)

/-- The refresh is navigating, settling, probing the UI or waiting out the
capture window. -/
def RefreshPc.inFlight : RefreshPc → Bool
  | .navigating => true
  | .settling => true
  | .probing => true
  | .window => true
  | _ => false

/-- The refresh is between `s.mu.Lock()` and `s.mu.Unlock()`. -/
def RefreshPc.holdsLock : RefreshPc → Bool
  | .idle => false
  | .waitLock => false
  | _ => true

/-- One scheduling decision: the refreshing goroutine moves (`navOk` tells
whether its navigation succeeds, which matters at `navigating` only), or the
reading goroutine moves. -/
inductive Action where
  | refresh (navOk : Bool)
  | reader
  deriving DecidableEq, Repr

/-- One step of the scheduled goroutine; `none` when it is blocked. -/
def step (st : Sys) : Action → Option Sys
  | .refresh navOk =>
    match st.refresh with
    | .idle =>
      if canLock st then some { st with mu := { st.mu with writer := true }, refresh := .setup }
      else some { st with refresh := .waitLock }
    | .waitLock =>
      if canLock st then some { st with mu := { st.mu with writer := true }, refresh := .setup }
      else none
    | .setup => some { st with refresh := .navigating }
    | .navigating =>
      if navOk then some { st with refresh := .settling }
      else some { st with mu := { st.mu with writer := false }, refresh := .idle }
    | .settling => some { st with refresh := .probing }
    | .probing => some { st with refresh := .window }
    | .window => some { st with refresh := .commit }
    | .commit => some { st with mu := { st.mu with writer := false }, refresh := .idle }
  | .reader =>
    match st.reader with
    | .idle =>
      if canRLock st then
        some { st with mu := { st.mu with readers := st.mu.readers + 1 }, reader := .reading }
      else some { st with reader := .waitRLock }
    | .waitRLock =>
      if canRLock st then
        some { st with mu := { st.mu with readers := st.mu.readers + 1 }, reader := .reading }
      else none
    | .reading =>
      some { st with mu := { st.mu with readers := st.mu.readers - 1 }, reader := .idle }

/-- Run a schedule from a state; `none` if it schedules a blocked goroutine. -/
def runSchedule (st : Sys) : List Action → Option Sys
  | [] => some st
  | a :: rest =>
    match step st a with
    | none => none
    | some st1 => runSchedule st1 rest

/-- States some schedule reaches from `Sys.init`. -/
def Reachable (st : Sys) : Prop :=
  ∃ sched : List Action, runSchedule Sys.init sched = some st

/-- What the lock protocol maintains: the mutex is held exclusively exactly
while the refresh is between `Lock` and `Unlock`, it is held shared exactly
while the reader is between `RLock` and `RUnlock`, and never both. -/
def LockInv (st : Sys) : Prop :=
  st.mu.writer = st.refresh.holdsLock ∧
  st.mu.readers = (if st.reader = .reading then 1 else 0) ∧
  (st.mu.writer = true → st.mu.readers = 0)

/-! ## Scenarios

Concrete states and environments, used to evaluate the operations. -/

/-- A connected service with no page open and no token. -/
def sampleService : Service := Service.fresh { pages := [], nextPage := 0 }

/-- A connected service holding the token `tok-1`, captured at instant 5. -/
def tokenService : Service :=
  { browser := some { pages := [], nextPage := 0 }, page := none,
    xIsHuman := "tok-1", lastFetch := 5 }

def sampleRequest : CursorChatRequest :=
  { context := [], model := "m", id := "1", messages := [], trigger := "submit-message" }

/-- A refresh in which every browser call succeeds except that the
navigation ends as `navigate` says; the page issues `requests`. -/
def refreshEnv (navigate : Option String) (requests : List Request) (now : Int) : RefreshEnv :=
  { mustPage := none, mustSetUserAgent := none, mustEvalOnNewDocument := none, mustAdd := none,
    navigate := navigate, mustWaitLoad := none, askFound := true, inputFound := false,
    requests := requests, now := now }

/-- A chat request that carries the header under its lower-case name. -/
def lowerCaseRequest : Request :=
  { url := "https://cursor.com/api/chat", headers := [("x-is-human", "tok-2")] }

/-- A chat request that carries the header under its canonical name. -/
def canonicalCaseRequest : Request :=
  { url := "https://cursor.com/api/chat", headers := [("X-Is-Human", "tok-2")] }

/-- An upstream rejection with the given status and body. -/
def rejection (status : Nat) (body : String) : Response :=
  { ok := false, status := status, text := .resolved body, chunks := [body], streamEnd := .done }

/-- An OK upstream response that streams `fragments` and then ends cleanly. -/
def okStream (fragments : List String) : Response :=
  { ok := true, status := 200, text := .resolved (String.join fragments),
    chunks := fragments, streamEnd := .done }

/-- A streaming call in which every browser call succeeds, against the
given upstream, with `served` bridge calls reaching the host in time and
`ran` fragment calls run when the wait ends. -/
def racingEnv (upstream : Settled Response) (served ran : Nat) : StreamEnv :=
  { mustPage := none, mustSetUserAgent := none, mustEvalOnNewDocument := none,
    exposeCallback := none, exposeDone := none, mustNavigate := none, mustWaitLoad := none,
    evaluate := none, upstream := upstream, served := served, ran := ran }

/-- A streaming call in which every browser call succeeds, against the
given upstream, with `served` bridge calls reaching the host in time, each
fragment call among them run before the wait ends. -/
def streamEnv (upstream : Settled Response) (served : Nat) : StreamEnv :=
  racingEnv upstream served served

/-- A buffered call in which every browser call succeeds, against the given
upstream. -/
def bufferedEnv (upstream : Settled Response) (inTime : Bool) : BufferedEnv :=
  { mustPage := none, mustSetUserAgent := none, mustEvalOnNewDocument := none,
    mustNavigate := none, mustWaitLoad := none, evaluate := none, upstream := upstream,
    inTime := inTime, evalError := id }

/-- The lock state once a refresh has taken the lock and started navigating. -/
def navigatingSys : Sys :=
  { mu := { writer := true, readers := 0 }, refresh := .navigating, reader := .idle }

/-! # The tool-call protocol server (`internal/mcp/server.go`) -/

/-- A value as `encoding/json` stores it in an `interface{}` and writes it
back: `nil`, a `bool`, a finite `float64` (a rational), a `string`, a
`[]interface{}`, or a `map[string]interface{}`. Also the shape of a
marshalled document, whose object fields keep the order they are written
in. -/
inductive JSON where
  | null
  | bool (b : Bool)
  | number (n : ℚ)
  | string (s : String)
  | array (items : List JSON)
  | object (fields : List (String × JSON))

/-- `type JSONRPCRequest struct`. `ID` is the decoded `id` (`JSON.null` for
the nil interface); `Params` is the raw text of `params`, empty when the
request has none. -/
structure JSONRPCRequest where
  JSONRPC : String
  ID : JSON
  Method : String
  Params : String

/-- `type RPCError struct`. `Data = none` is the nil interface. -/
structure RPCError where
  Code : Int
  Message : String
  Data : Option JSON

/-- `type ServerInfo struct`. -/
structure ServerInfo where
  Name : String
  Version : String

/-- `type ToolsCapability struct`. -/
structure ToolsCapability where
  ListChanged : Bool

/-- `type ServerCapabilities struct`. `Tools = none` is the nil pointer. -/
structure ServerCapabilities where
  Tools : Option ToolsCapability

/-- `type InitializeResult struct`. -/
structure InitializeResult where
  ProtocolVersion : String
  Capabilities : ServerCapabilities
  ServerInfo : ServerInfo

/-- `type Property struct`. -/
structure Property where
  /-- the Go field `Type` -/
  type : String
  Description : String

/-- `type InputSchema struct`. `Properties` is a Go map, written here as
its entries. -/
structure InputSchema where
  /-- the Go field `Type` -/
  type : String
  Properties : List (String × Property)
  Required : List String

/-- `type Tool struct`. -/
structure Tool where
  Name : String
  Description : String
  InputSchema : InputSchema

/-- `type ToolsListResult struct`. -/
structure ToolsListResult where
  Tools : List Tool

/-- `type CallToolParams struct`. `Arguments = none` is the nil map. -/
structure CallToolParams where
  Name : String
  Arguments : Option (List (String × JSON))

/-- `type ContentItem struct`. -/
structure ContentItem where
  /-- the Go field `Type` -/
  type : String
  Text : String

/-- `type CallToolResult struct`. -/
structure CallToolResult where
  Content : List ContentItem
  IsError : Bool

/-- The values the server passes as `result interface{}`. -/
inductive ResultValue where
  | initializeResult (r : InitializeResult)
  | toolsList (r : ToolsListResult)
  | emptyMap
  | callTool (r : CallToolResult)

/-- `type JSONRPCResponse struct`. `Result = none` is the nil interface,
`Error = none` the nil pointer. -/
structure JSONRPCResponse where
  JSONRPC : String
  ID : JSON
  Result : Option ResultValue
  Error : Option RPCError

/-! ## `json.Marshal` of the response types

Fields are written in declaration order under their tag names; a field
tagged `omitempty` is left out when it is the empty string, `false`, a nil
interface, a nil pointer, or an empty map or slice; the keys of a map are
written in sorted order. None of these values makes `json.Marshal` fail. -/

/-- A field tagged `omitempty` whose Go value is a string. -/
def omitEmptyString (name value : String) : List (String × JSON) :=
  if value = "" then [] else [(name, .string value)]

/-- Insert a map entry at its place among entries sorted by key. -/
def insertByKey (kv : String × JSON) : List (String × JSON) → List (String × JSON)
  | [] => [kv]
  | x :: rest => if kv.1 < x.1 then kv :: x :: rest else x :: insertByKey kv rest

/-- The entries of a Go map in the order `json.Marshal` writes them. -/
def sortByKey (entries : List (String × JSON)) : List (String × JSON) :=
  entries.foldr insertByKey []

def Property.toJSON (p : Property) : JSON :=
  .object ([("type", .string p.type)] ++ omitEmptyString "description" p.Description)

def InputSchema.toJSON (i : InputSchema) : JSON :=
  .object ([("type", .string i.type)]
    ++ (if i.Properties.isEmpty then []
        else [("properties",
          .object (sortByKey (i.Properties.map (fun kv => (kv.1, kv.2.toJSON)))))])
    ++ (if i.Required.isEmpty then []
        else [("required", .array (i.Required.map .string))]))

def Tool.toJSON (t : Tool) : JSON :=
  .object ([("name", .string t.Name)] ++ omitEmptyString "description" t.Description
    ++ [("inputSchema", t.InputSchema.toJSON)])

def ToolsListResult.toJSON (r : ToolsListResult) : JSON :=
  .object [("tools", .array (r.Tools.map Tool.toJSON))]

def ToolsCapability.toJSON (c : ToolsCapability) : JSON :=
  .object (if c.ListChanged then [("listChanged", .bool true)] else [])

def ServerCapabilities.toJSON (c : ServerCapabilities) : JSON :=
  .object (match c.Tools with
    | none => []
    | some t => [("tools", t.toJSON)])

def ServerInfo.toJSON (i : ServerInfo) : JSON :=
  .object [("name", .string i.Name), ("version", .string i.Version)]

def InitializeResult.toJSON (r : InitializeResult) : JSON :=
  .object [("protocolVersion", .string r.ProtocolVersion),
    ("capabilities", r.Capabilities.toJSON), ("serverInfo", r.ServerInfo.toJSON)]

def ContentItem.toJSON (c : ContentItem) : JSON :=
  .object ([("type", .string c.type)] ++ omitEmptyString "text" c.Text)

def CallToolResult.toJSON (r : CallToolResult) : JSON :=
  .object ([("content", .array (r.Content.map ContentItem.toJSON))]
    ++ (if r.IsError then [("isError", .bool true)] else []))

def ResultValue.toJSON : ResultValue → JSON
  | .initializeResult r => r.toJSON
  | .toolsList r => r.toJSON
  | .emptyMap => .object []
  | .callTool r => r.toJSON

def RPCError.toJSON (e : RPCError) : JSON :=
  .object ([("code", .number e.Code), ("message", .string e.Message)]
    ++ (match e.Data with
        | none => []
        | some d => [("data", d)]))

def JSONRPCResponse.toJSON (r : JSONRPCResponse) : JSON :=
  .object ([("jsonrpc", .string r.JSONRPC), ("id", r.ID)]
    ++ (match r.Result with
        | none => []
        | some v => [("result", v.toJSON)])
    ++ (match r.Error with
        | none => []
        | some e => [("error", e.toJSON)]))

/-! ## The server -/

/-- `type Server struct`, with what it uses from outside the file as
fields: `execute` is `tools.Executor.Execute`, whose source is not among
the files, and `unmarshalParams` is `json.Unmarshal` into a
`CallToolParams` (the error text on failure). `output` holds the documents
written to the output so far, one per line, oldest first. -/
structure Server where
  execute : String → Option (List (String × JSON)) → String × GoError
  unmarshalParams : String → Except String CallToolParams
  output : List JSON

/-- `func (s *Server) sendResponse(resp JSONRPCResponse)`: the response is
marshalled and written as one line. `json.Marshal` does not fail on a
response whose id was decoded from JSON, so the branch of lines 296-299 is
never taken. -/
def Server.sendResponse (s : Server) (resp : JSONRPCResponse) : Server :=
  { s with output := s.output ++ [resp.toJSON] }

/-- `func (s *Server) sendResult(id interface{}, result interface{})`. -/
def Server.sendResult (s : Server) (id : JSON) (result : ResultValue) : Server :=
  s.sendResponse { JSONRPC := "2.0", ID := id, Result := some result, Error := none }

/-- `func (s *Server) sendError(id interface{}, code int, message string, data interface{})`. -/
def Server.sendError (s : Server) (id : JSON) (code : Int) (message : String)
    (data : Option JSON) : Server :=
  s.sendResponse
    { JSONRPC := "2.0", ID := id, Result := none,
      Error := some { Code := code, Message := message, Data := data } }

/-- `func (s *Server) handleInitialize(req JSONRPCRequest)`. -/
def Server.handleInitialize (s : Server) (req : JSONRPCRequest) : Server :=
  s.sendResult req.ID (.initializeResult
    { ProtocolVersion := "2024-11-05",
      Capabilities := { Tools := some { ListChanged := false } },
      ServerInfo := { Name := "cursor2api-mcp", Version := "1.0.0" } })

/-- The tool table of `handleToolsList`. -/
def toolTable : List Tool :=
  [ { Name := "bash", Description := "执行 bash 命令",
      InputSchema :=
        { type := "object",
          Properties :=
            [("command", { type := "string", Description := "要执行的命令" }),
             ("cwd", { type := "string", Description := "工作目录（可选）" })],
          Required := ["command"] } },
    { Name := "read_file", Description := "读取文件内容",
      InputSchema :=
        { type := "object",
          Properties := [("path", { type := "string", Description := "文件路径" })],
          Required := ["path"] } },
    { Name := "write_file", Description := "写入文件内容",
      InputSchema :=
        { type := "object",
          Properties :=
            [("path", { type := "string", Description := "文件路径" }),
             ("content", { type := "string", Description := "文件内容" })],
          Required := ["path", "content"] } },
    { Name := "list_dir", Description := "列出目录内容",
      InputSchema :=
        { type := "object",
          Properties := [("path", { type := "string", Description := "目录路径" })],
          Required := ["path"] } },
    { Name := "edit", Description := "编辑文件（查找替换）",
      InputSchema :=
        { type := "object",
          Properties :=
            [("path", { type := "string", Description := "文件路径" }),
             ("old_string", { type := "string", Description := "要替换的内容" }),
             ("new_string", { type := "string", Description := "替换后的内容" }),
             ("replace_all", { type := "boolean", Description := "是否替换所有匹配" })],
          Required := ["path", "old_string", "new_string"] } } ]

/-- `func (s *Server) handleToolsList(req JSONRPCRequest)`. -/
def Server.handleToolsList (s : Server) (req : JSONRPCRequest) : Server :=
  s.sendResult req.ID (.toolsList { Tools := toolTable })

/-- `func (s *Server) handleToolsCall(req JSONRPCRequest)`. -/
def Server.handleToolsCall (s : Server) (req : JSONRPCRequest) : Server :=
  match s.unmarshalParams req.Params with
  | .error e => s.sendError req.ID (-32602) "Invalid params" (some (.string e))
  | .ok params =>
    match s.execute params.Name params.Arguments with
    | (output, some err) =>
      s.sendResult req.ID (.callTool
        { Content := [{ type := "text", Text := "错误: " ++ err ++ "\n" ++ output }],
          IsError := true })
    | (output, none) =>
      s.sendResult req.ID (.callTool
        { Content := [{ type := "text", Text := output }], IsError := false })

/-- `func (s *Server) handleRequest(req JSONRPCRequest)`. -/
def Server.handleRequest (s : Server) (req : JSONRPCRequest) : Server :=
  if req.Method = "initialize" then s.handleInitialize req
  else if req.Method = "initialized" then s
  else if req.Method = "tools/list" then s.handleToolsList req
  else if req.Method = "tools/call" then s.handleToolsCall req
  else if req.Method = "ping" then s.sendResult req.ID .emptyMap
  else s.sendError req.ID (-32601) "Method not found" (some (.string req.Method))

/-- The methods `handleRequest` has a case for. -/
def knownMethods : List String :=
  ["initialize", "initialized", "tools/list", "tools/call", "ping"]

/-- The loop body of `Run` (lines 128-139) for one input line, with the
decoding of the line (`json.Unmarshal` into a `JSONRPCRequest`) given. -/
def Server.handleLine (s : Server) (unmarshalRequest : String → Except String JSONRPCRequest)
    (line : String) : Server :=
  if line = "" then s
  else
    match unmarshalRequest line with
    | .error e => s.sendError .null (-32700) "Parse error" (some (.string e))
    | .ok req => s.handleRequest req

/-- `func (s *Server) Run() error` over the lines the scanner delivers. -/
def Server.Run (s : Server) (unmarshalRequest : String → Except String JSONRPCRequest)
    (lines : List String) : Server :=
  lines.foldl (fun st line => st.handleLine unmarshalRequest line) s

/-- A server whose executor echoes the tool name and whose parameter
decoder rejects everything, with nothing written yet. -/
def sampleServer : Server :=
  { execute := fun name _ => (name, none),
    unmarshalParams := fun _ => .error "unexpected end of JSON input",
    output := [] }

/-! # Command extraction (`internal/tools/intent.go`, lines 138-218) -/

/-! ## `strings` -/

/-- `unicode.IsSpace`, which `strings.TrimSpace` strips. -/
def isSpace (c : Char) : Bool :=
  c = '\t' || c = '\n' || c = '\x0b' || c = '\x0c' || c = '\r' || c = ' '
    || c.toNat = 0x85 || c.toNat = 0xA0 || c.toNat = 0x1680
    || (0x2000 ≤ c.toNat && c.toNat ≤ 0x200A)
    || c.toNat = 0x2028 || c.toNat = 0x2029 || c.toNat = 0x202F || c.toNat = 0x205F
    || c.toNat = 0x3000

/-- `strings.TrimSpace`. -/
def TrimSpace (s : String) : String :=
  String.mk ((s.toList.dropWhile isSpace).reverse.dropWhile isSpace).reverse

/-- The scan of `strings.ReplaceAll` for a non-empty `old`: `skip` characters
of an occurrence just replaced are still to be passed over. -/
def replaceAux (old new : List Char) : Nat → List Char → List Char
  | _, [] => []
  | skip + 1, _ :: s => replaceAux old new skip s
  | 0, c :: s =>
    if old.isPrefixOf (c :: s) then new ++ replaceAux old new (old.length - 1) s
    else c :: replaceAux old new 0 s

/-- `strings.ReplaceAll(s, old, new)`: the non-overlapping occurrences of
`old`, leftmost first, are replaced by `new`; an empty `old` matches before
every character and at the end. -/
def ReplaceAll (s old new : String) : String :=
  if old = "" then String.mk (new.toList ++ s.toList.flatMap (fun c => c :: new.toList))
  else String.mk (replaceAux old.toList new.toList 0 s.toList)

/-- The pieces between line feeds, with `sofar` the reversed piece under
way. -/
def splitAux (sofar : List Char) : List Char → List String
  | [] => [String.mk sofar.reverse]
  | c :: s => if c = '\n' then String.mk sofar.reverse :: splitAux [] s
              else splitAux (c :: sofar) s

/-- `strings.Split(s, "\n")`. -/
def splitLines (s : String) : List String :=
  splitAux [] s.toList

/-! ## `regexp`

The patterns of the file use literals, character classes, sequence,
alternation, greedy repetition, one capture group, and the anchors `^` and
`$` without flags. Matching is leftmost-first: the alternatives are tried
in the order the pattern gives them, a repetition first takes as much as
it can. -/

/-- A regular expression. -/
inductive Re where
  | eps
  | char (p : Char → Bool)
  | seq (a b : Re)
  | alt (a b : Re)
  | star (a : Re)
  | group (a : Re)
  | bol
  | eol

/-- A run of a match: the input still unread and the text of the capture
group, if it has been closed. -/
abbrev Re.Cont := List Char → Option (List Char) → Option (List Char × Option (List Char))

/-- Greedy repetition of `step`, at most `n` times, each time on a shorter
input. -/
def Re.starLoop (step : List Char → Option (List Char) → Re.Cont →
      Option (List Char × Option (List Char))) :
    Nat → List Char → Option (List Char) → Re.Cont →
      Option (List Char × Option (List Char))
  | 0, s, cap, k => k s cap
  | n + 1, s, cap, k =>
    (step s cap (fun s1 cap1 =>
      if s1.length < s.length then Re.starLoop step n s1 cap1 k else none)).orElse
      (fun _ => k s cap)

/-- Match `re` at the start of `s`, a suffix of `text`, then continue with
`k`; the first success in priority order is the result. -/
def Re.exec (text : List Char) : Re → List Char → Option (List Char) → Re.Cont →
    Option (List Char × Option (List Char))
  | .eps, s, cap, k => k s cap
  | .char _, [], _, _ => none
  | .char p, c :: s, cap, k => if p c then k s cap else none
  | .seq a b, s, cap, k => Re.exec text a s cap (fun s1 cap1 => Re.exec text b s1 cap1 k)
  | .alt a b, s, cap, k => (Re.exec text a s cap k).orElse (fun _ => Re.exec text b s cap k)
  | .star a, s, cap, k =>
    Re.starLoop (fun s1 cap1 k1 => Re.exec text a s1 cap1 k1) s.length s cap k
  | .group a, s, cap, k =>
    Re.exec text a s cap (fun s1 _ => k s1 (some (s.take (s.length - s1.length))))
  | .bol, s, cap, k => if s.length = text.length then k s cap else none
  | .eol, s, cap, k => if s.isEmpty then k s cap else none

/-- The leftmost match of `re` in `text`, searched from the suffix `s` on:
the matched text and the text of the capture group. -/
def Re.findFrom (re : Re) (text : List Char) : List Char →
    Option (List Char × Option (List Char))
  | [] =>
    match Re.exec text re [] none (fun rest cap => some (rest, cap)) with
    | some (_, cap) => some ([], cap)
    | none => none
  | c :: s =>
    match Re.exec text re (c :: s) none (fun rest cap => some (rest, cap)) with
    | some (rest, cap) => some ((c :: s).take ((c :: s).length - rest.length), cap)
    | none => Re.findFrom re text s

/-- `re.FindString(s)`: the text of the leftmost match, or the empty
string. -/
def Re.FindString (re : Re) (s : String) : String :=
  match Re.findFrom re s.toList s.toList with
  | some (m, _) => String.mk m
  | none => ""

/-- `re.FindStringSubmatch(s)` for a pattern with one group: the text of
the leftmost match and of its group (empty if the group took no part), or
nil. -/
def Re.FindStringSubmatch (re : Re) (s : String) : List String :=
  match Re.findFrom re s.toList s.toList with
  | some (m, cap) => [String.mk m, String.mk (cap.getD [])]
  | none => []

/-- A literal string. -/
def Re.lit (s : String) : Re :=
  s.toList.foldr (fun c r => .seq (.char (fun x => x = c)) r) .eps

/-- A sequence of expressions. -/
def Re.cat (rs : List Re) : Re :=
  rs.foldr .seq .eps

/-- `a+`. -/
def Re.plus (a : Re) : Re := .seq a (.star a)

/-- `a?`. -/
def Re.opt (a : Re) : Re := .alt a .eps

/-- An alternation of literals, in the order given. -/
def Re.anyOf : List String → Re
  | [] => .char (fun _ => false)
  | [w] => Re.lit w
  | w :: rest => .alt (Re.lit w) (Re.anyOf rest)

/-- The class `\s`: tab, line feed, form feed, carriage return, space. -/
def Re.space : Re :=
  .char (fun c => c = '\t' || c = '\n' || c = '\x0c' || c = '\r' || c = ' ')

/-- The class `\S`. -/
def Re.nonSpace : Re :=
  .char (fun c => !(c = '\t' || c = '\n' || c = '\x0c' || c = '\r' || c = ' '))

/-- The class `.`: any character but the line feed. -/
def Re.dot : Re := .char (fun c => c ≠ '\n')

/-- A negated class of the listed characters. -/
def Re.noneOf (cs : List Char) : Re := .char (fun c => !cs.contains c)

/-- The pattern of line 150: an opening brace, `"tool"`, `\s*:\s*"`, the
group `([^"]+)`, `"`, then `[^}]*` and a closing brace. -/
def jsonPattern : Re :=
  Re.cat [Re.lit "\x7b\"tool\"", .star Re.space, Re.lit ":", .star Re.space, Re.lit "\"",
    .group (Re.plus (Re.noneOf ['"'])), Re.lit "\"", .star (Re.noneOf ['\x7d']),
    Re.lit "\x7d"]

/-- The pattern of line 185: three backticks, `(?:bash|sh)?\s*\n?`, the
group of characters other than the backtick, `\n?`, three backticks. -/
def codeBlockRe : Re :=
  Re.cat [Re.lit "\x60\x60\x60", Re.opt (Re.anyOf ["bash", "sh"]), .star Re.space,
    Re.opt (Re.lit "\n"), .group (Re.plus (Re.noneOf ['\x60'])), Re.opt (Re.lit "\n"),
    Re.lit "\x60\x60\x60"]

/-- The tail `\s*>\s*\S+` of a redirection. -/
def redirectTail : Re :=
  Re.cat [.star Re.space, Re.lit ">", .star Re.space, Re.plus Re.nonSpace]

/-- The four patterns of lines 195-204, in order. -/
def cmdPatterns : List Re :=
  [ Re.cat [.bol, .star Re.space,
      .group (Re.cat [Re.lit "echo", Re.plus Re.space, Re.plus Re.dot, redirectTail])],
    Re.cat [.bol, .star Re.space,
      .group (Re.cat [Re.lit "cat", Re.plus Re.space, Re.plus Re.dot, redirectTail])],
    Re.cat [.bol, .star Re.space,
      .group (Re.cat [Re.anyOf ["echo", "cat", "mkdir", "touch", "rm", "cp", "mv", "ls",
        "pwd", "cd", "chmod", "chown"], Re.plus Re.space, Re.plus Re.dot]), .eol],
    Re.cat [.bol, .star Re.space,
      .group (Re.cat [Re.plus Re.nonSpace, Re.plus Re.space,
        .char (fun c => c = '"' || c = '\x27'), Re.plus (Re.noneOf ['"', '\x27']),
        .char (fun c => c = '"' || c = '\x27'), redirectTail])] ]

/-! ## Tool calls -/

/-- `type ToolCallFromJSON struct`. -/
structure ToolCallFromJSON where
  Tool : String
  Path : String
  Content : String
  Command : String
  deriving DecidableEq, Repr

/-- `func ExtractToolCallFromJSON(response string) *ToolCallFromJSON`.
`unmarshal` is `json.Unmarshal` into a `ToolCallFromJSON`: the decoded
struct, or `none` when it returns an error. -/
def ExtractToolCallFromJSON (unmarshal : String → Option ToolCallFromJSON)
    (response : String) : Option ToolCallFromJSON :=
  [jsonPattern].findSome? (fun pattern =>
    let found := pattern.FindString response
    if found ≠ "" then
      match unmarshal found with
      | some toolCall => if toolCall.Tool ≠ "" then some toolCall else none
      | none => none
    else none)

/-- Lines 173-174: the two replacements applied to the content. -/
def escapeContent (content : String) : String :=
  ReplaceAll (ReplaceAll content "\"" "\\\"") "$" "\\$"

/-- Lines 167-182: the command a tool call in the response gives, if any. -/
def commandOfToolCall (unmarshal : String → Option ToolCallFromJSON)
    (response : String) : Option String :=
  match ExtractToolCallFromJSON unmarshal response with
  | none => none
  | some toolCall =>
    if toolCall.Tool = "write_file" ∨ toolCall.Tool = "write_to_file" then
      if toolCall.Path ≠ "" ∧ toolCall.Content ≠ "" then
        some ("echo \"" ++ escapeContent toolCall.Content ++ "\" > \"" ++ toolCall.Path ++ "\"")
      else none
    else if toolCall.Tool = "bash" ∨ toolCall.Tool = "run_command" then
      if toolCall.Command ≠ "" then some toolCall.Command else none
    else none

/-- Lines 184-191: the command in the first fenced code block, if it is not
blank. -/
def commandOfCodeBlock (response : String) : Option String :=
  match codeBlockRe.FindStringSubmatch response with
  | [_, body] => if TrimSpace body ≠ "" then some (TrimSpace body) else none
  | _ => none

/-- Lines 206-216: the first non-blank line that one of the command
patterns matches gives its group, trimmed. -/
def commandOfLines (response : String) : Option String :=
  (splitLines response).findSome? (fun line =>
    if TrimSpace line = "" then none
    else cmdPatterns.findSome? (fun re =>
      match re.FindStringSubmatch (TrimSpace line) with
      | [_, body] => some (TrimSpace body)
      | _ => none))

/-- `func ExtractCommandFromRefusal(response string) string`. -/
def ExtractCommandFromRefusal (unmarshal : String → Option ToolCallFromJSON)
    (response : String) : String :=
  match commandOfToolCall unmarshal response with
  | some cmd => cmd
  | none =>
    match commandOfCodeBlock response with
    | some cmd => cmd
    | none => (commandOfLines response).getD ""

/-! ## Shell quoting -/

/-- Reading a text from left to right with `run` backslashes directly in
front of it: every double quote and every dollar sign has an odd number of
consecutive backslashes directly in front of it. -/
def escapedFrom (run : Nat) : List Char → Bool
  | [] => true
  | c :: s =>
    if c = '\\' then escapedFrom (run + 1) s
    else if c = '"' ∨ c = '$' then decide (run % 2 = 1) && escapedFrom 0 s
    else escapedFrom 0 s

/-- Every double quote and every dollar sign of `s` is preceded by an odd
number of consecutive backslashes. -/
def wellEscaped (s : String) : Bool :=
  escapedFrom 0 s.toList

/-- Reading a text from left to right with `run` backslashes directly in
front of it: every double quote and every dollar sign has an even number
of consecutive backslashes, possibly none, directly in front of it. -/
def plainFrom (run : Nat) : List Char → Bool
  | [] => true
  | c :: s =>
    if c = '\\' then plainFrom (run + 1) s
    else if c = '"' ∨ c = '$' then decide (run % 2 = 0) && plainFrom 0 s
    else plainFrom 0 s

/-- What the two replacements do to one character. -/
def escapeChar (c : Char) : List Char :=
  if c = '"' then ['\\', '"'] else if c = '$' then ['\\', '$'] else [c]

/-! ## Scenarios of command extraction -/

/-- The character a JSON escape `\e` stands for, for the one-letter
escapes. -/
def unescape (e : Char) : Option Char :=
  if e = '"' then some '"'
  else if e = '\\' then some '\\'
  else if e = '/' then some '/'
  else if e = 'b' then some '\x08'
  else if e = 'f' then some '\x0c'
  else if e = 'n' then some '\n'
  else if e = 'r' then some '\r'
  else if e = 't' then some '\t'
  else none

/-- A JSON string after its opening quote: the decoded text and what
follows the closing quote. -/
def parseString : List Char → Option (List Char × List Char)
  | [] => none
  | c :: rest =>
    if c = '"' then some ([], rest)
    else if c = '\\' then
      match rest with
      | [] => none
      | e :: rest2 =>
        match unescape e, parseString rest2 with
        | some d, some (text, after) => some (d :: text, after)
        | _, _ => none
    else if c.toNat < 0x20 then none
    else
      match parseString rest with
      | some (text, after) => some (c :: text, after)
      | none => none

/-- JSON white space is skipped. -/
def skipWs (s : List Char) : List Char :=
  s.dropWhile (fun c => c = ' ' || c = '\t' || c = '\n' || c = '\r')

/-- Store a decoded member in the field whose tag equals the key, letter
case ignored. -/
def setField (tc : ToolCallFromJSON) (key value : String) : ToolCallFromJSON :=
  if equalFold key "tool" then { tc with Tool := value }
  else if equalFold key "path" then { tc with Path := value }
  else if equalFold key "content" then { tc with Content := value }
  else if equalFold key "command" then { tc with Command := value }
  else tc

/-- The members of a flat object, after the opening brace or a comma. -/
def parseMembers : Nat → List Char → ToolCallFromJSON → Option ToolCallFromJSON
  | 0, _, _ => none
  | n + 1, s, tc =>
    match skipWs s with
    | '"' :: s1 =>
      match parseString s1 with
      | none => none
      | some (key, s2) =>
        match skipWs s2 with
        | ':' :: s3 =>
          match skipWs s3 with
          | '"' :: s4 =>
            match parseString s4 with
            | none => none
            | some (value, s5) =>
              match skipWs s5 with
              | ',' :: s6 => parseMembers n s6 (setField tc (String.mk key) (String.mk value))
              | '\x7d' :: s6 =>
                if (skipWs s6).isEmpty then
                  some (setField tc (String.mk key) (String.mk value))
                else none
              | _ => none
          | _ => none
        | _ => none
    | _ => none

/-- A decoder for the scenarios: it decodes a non-empty JSON object whose
members are all strings written with plain characters and one-letter
escapes, as `json.Unmarshal` into a `ToolCallFromJSON` does, and refuses
every other text. -/
def flatUnmarshal (text : String) : Option ToolCallFromJSON :=
  match skipWs text.toList with
  | '\x7b' :: s =>
    parseMembers text.length s { Tool := "", Path := "", Content := "", Command := "" }
  | _ => none

/-- A response carrying a `write_file` call whose content is a backslash
followed by a double quote (written `\\\"` in JSON). -/
def backslashQuoteResponse : String :=
  "I cannot do that. \x7b\"tool\":\"write_file\",\"path\":\"f\",\"content\":\"\\\\\\\"\"\x7d"

/-- A response carrying a `write_to_file` call whose content holds a double
quote and a dollar sign but no backslash. -/
def quoteDollarResponse : String :=
  "\x7b\"tool\": \"write_to_file\", \"path\": \"a.txt\", \"content\": \"say \\\"hi\\\" to $USER\"\x7d"

end Cursor2Api

/-! # Theorems -/

namespace Cursor2Api

/-! ## Time -/

/-- Saturation never changes the outcome of the 30 minute test: the
saturated difference exceeds 30 minutes exactly when the true one does. -/
theorem timeSub_gt_iff (t u : Int) :
    timeSub t u > 30 * Minute ↔ t - u > 30 * Minute := by
  have hmax : maxDuration = 9223372036854775807 := by norm_num [maxDuration]
  have hmin : minDuration = -9223372036854775808 := by norm_num [minDuration]
  have hmn : 30 * Minute = 1800000000000 := by norm_num [Minute, Second, Millisecond]
  unfold timeSub
  rw [hmax, hmin, hmn]
  split_ifs with h1 h2
  · constructor <;> intro h <;> omega
  · constructor <;> intro h <;> omega
  · rfl

/-! ## The router pattern -/

theorem starMatch_iff (k : List Char → Bool) (s : List Char) :
    globMatch.starMatch k s = true ↔ ∃ t, t <:+ s ∧ k t = true := by
  induction s with
  | nil =>
    simp [globMatch.starMatch]
  | cons c rest ih =>
    simp only [globMatch.starMatch, Bool.or_eq_true, ih]
    constructor
    · rintro (h | ⟨t, ht, hk⟩)
      · exact ⟨c :: rest, List.suffix_refl _, h⟩
      · exact ⟨t, ht.trans (List.suffix_cons c rest), hk⟩
    · rintro ⟨t, ht, hk⟩
      rcases List.suffix_cons_iff.mp ht with h | h
      · left; rw [← h]; exact hk
      · right; exact ⟨t, h, hk⟩

/-- A pattern that starts with plain characters matches exactly the strings
that start with them and whose rest matches the rest of the pattern. -/
theorem globMatch_literal (lit : List Char) (hlit : ∀ c ∈ lit, c ≠ '*' ∧ c ≠ '?')
    (p : List Char) :
    ∀ s : List Char,
      globMatch (lit ++ p) s = true ↔ ∃ t, s = lit ++ t ∧ globMatch p t = true := by
  induction lit with
  | nil => intro s; simp
  | cons a rest ih =>
    intro s
    have ha := hlit a (List.mem_cons_self _ _)
    have hrest : ∀ c ∈ rest, c ≠ '*' ∧ c ≠ '?' :=
      fun c hc => hlit c (List.mem_cons_of_mem _ hc)
    cases s with
    | nil => simp [globMatch, ha.1]
    | cons c s1 =>
      simp only [List.cons_append, globMatch, ha.1, ha.2, if_false, decide_False,
        Bool.false_or, Bool.and_eq_true, decide_eq_true_eq, List.cons.injEq]
      have hih := ih hrest s1
      constructor
      · rintro ⟨hac, hm⟩
        obtain ⟨t, hs, hmt⟩ := hih.mp hm
        exact ⟨t, ⟨hac.symm, hs⟩, hmt⟩
      · rintro ⟨t, ⟨hca, hs⟩, hm⟩
        exact ⟨hca.symm, hih.mpr ⟨t, hs, hm⟩⟩

theorem globMatch_star_nil (s : List Char) : globMatch ['*'] s = true := by
  simp only [globMatch, if_true]
  exact (starMatch_iff _ s).mpr ⟨[], List.nil_suffix, by simp [globMatch]⟩

/-- The router pattern `*/api/chat*` matches exactly the URLs that contain
`/api/chat`. -/
theorem chatPattern_matches_iff (url : List Char) :
    globMatch chatPattern.toList url = true ↔ "/api/chat".toList <:+: url := by
  have hp : chatPattern.toList = '*' :: ("/api/chat".toList ++ ['*']) := by decide
  have hlit : ∀ c ∈ "/api/chat".toList, c ≠ '*' ∧ c ≠ '?' := by decide
  rw [hp]
  simp only [globMatch, if_true]
  rw [starMatch_iff]
  constructor
  · rintro ⟨t, hts, hm⟩
    obtain ⟨u, hu, -⟩ := (globMatch_literal _ hlit ['*'] t).mp hm
    obtain ⟨pre, hpre⟩ := hts
    exact ⟨pre, u, by rw [← hpre, hu, List.append_assoc]⟩
  · rintro ⟨pre, u, h⟩
    refine ⟨"/api/chat".toList ++ u, ⟨pre, by rw [← h, List.append_assoc]⟩, ?_⟩
    exact (globMatch_literal _ hlit ['*'] _).mpr ⟨u, rfl, globMatch_star_nil u⟩

/-! ## `RefreshToken` and `GetXIsHuman` -/

/-- Whatever way a `RefreshToken` call ends, the token record is either
untouched or it is the non-empty captured token with the commit time. -/
theorem RefreshToken_record_cases (s : Service) (env : RefreshEnv) :
    ((RefreshToken s env).state.xIsHuman = s.xIsHuman ∧
      (RefreshToken s env).state.lastFetch = s.lastFetch) ∨
    (routerCapture env.requests ≠ "" ∧
      (RefreshToken s env).state.xIsHuman = routerCapture env.requests ∧
      (RefreshToken s env).state.lastFetch = env.now) := by
  unfold RefreshToken RefreshToken.body
  rcases hb : s.browser with _ | b <;> rcases hpg : s.page with _ | old <;>
  rcases h1 : env.mustPage with _ | e1 <;>
  rcases h2 : env.mustSetUserAgent with _ | e2 <;>
  rcases h3 : env.mustEvalOnNewDocument with _ | e3 <;>
  rcases h4 : env.mustAdd with _ | e4 <;>
  rcases h5 : env.navigate with _ | e5 <;>
  rcases h6 : env.mustWaitLoad with _ | e6 <;>
  by_cases hc : routerCapture env.requests = "" <;>
  simp_all [Browser.newPage]

/-- A call that panics leaves the token record untouched. -/
theorem RefreshToken_panic_keeps_record (s : Service) (env : RefreshEnv) (msg : String)
    (hp : (RefreshToken s env).out = .panicked msg) :
    (RefreshToken s env).state.xIsHuman = s.xIsHuman ∧
    (RefreshToken s env).state.lastFetch = s.lastFetch := by
  unfold RefreshToken RefreshToken.body at *
  rcases hb : s.browser with _ | b <;> rcases hpg : s.page with _ | old <;>
  rcases h1 : env.mustPage with _ | e1 <;>
  rcases h2 : env.mustSetUserAgent with _ | e2 <;>
  rcases h3 : env.mustEvalOnNewDocument with _ | e3 <;>
  rcases h4 : env.mustAdd with _ | e4 <;>
  rcases h5 : env.navigate with _ | e5 <;>
  rcases h6 : env.mustWaitLoad with _ | e6 <;>
  by_cases hc : routerCapture env.requests = "" <;>
  simp_all [Browser.newPage]

/-- As long as no refresh captures a non-empty token, the stored value stays
empty. -/
theorem refreshAll_keeps_empty (envs : List RefreshEnv) :
    ∀ s : Service, s.xIsHuman = "" → (∀ env ∈ envs, routerCapture env.requests = "") →
      (refreshAll s envs).xIsHuman = "" := by
  induction envs with
  | nil => intro s hs _; simpa [refreshAll] using hs
  | cons env rest ih =>
    intro s hs hall
    have hrest : ∀ e ∈ rest, routerCapture e.requests = "" :=
      fun e he => hall e (List.mem_cons_of_mem _ he)
    have hhead : routerCapture env.requests = "" := hall env (List.mem_cons_self _ _)
    have hstep : (RefreshToken s env).state.xIsHuman = "" := by
      rcases RefreshToken_record_cases s env with h | h
      · rw [h.1, hs]
      · exact absurd hhead h.1
    simpa [refreshAll] using ih (RefreshToken s env).state hstep hrest

/-- C1. A `RefreshToken` call whose navigation to the bootstrap page fails
(the call reached `s.page.Navigate`, which returned the error `e`) returns a
non-nil error, the one wrapping `e`, after stopping the router; the stored
token value and `lastFetch` are what they were before the call, and so is
what `GetXIsHuman` returns. -/
theorem RefreshToken_navigation_failure (s : Service) (env : RefreshEnv) (e : String)
    (now : Int)
    (hreach : Event.navigate bootstrapURL ∈ (RefreshToken s env).trace)
    (hnav : env.navigate = some e) :
    (RefreshToken s env).out = .returned (some ("导航失败: " ++ e)) ∧
    (RefreshToken s env).state.xIsHuman = s.xIsHuman ∧
    (RefreshToken s env).state.lastFetch = s.lastFetch ∧
    (GetXIsHuman (RefreshToken s env).state now).out = (GetXIsHuman s now).out ∧
    Event.routerStop ∈ (RefreshToken s env).trace := by
  unfold GetXIsHuman RefreshToken RefreshToken.body at *
  rcases hb : s.browser with _ | b <;> rcases hpg : s.page with _ | old <;>
  rcases h1 : env.mustPage with _ | e1 <;>
  rcases h2 : env.mustSetUserAgent with _ | e2 <;>
  rcases h3 : env.mustEvalOnNewDocument with _ | e3 <;>
  rcases h4 : env.mustAdd with _ | e4 <;>
  simp_all [Browser.newPage]

/-- C1 at a service holding `tok-1`, captured at instant 5, whose navigation
times out. -/
theorem RefreshToken_navigation_failure_witness :
    (RefreshToken tokenService (refreshEnv (some "net::ERR_TIMED_OUT") [lowerCaseRequest] 9)).out
      = .returned (some "导航失败: net::ERR_TIMED_OUT") ∧
    (RefreshToken tokenService
      (refreshEnv (some "net::ERR_TIMED_OUT") [lowerCaseRequest] 9)).state.xIsHuman = "tok-1" ∧
    (RefreshToken tokenService
      (refreshEnv (some "net::ERR_TIMED_OUT") [lowerCaseRequest] 9)).state.lastFetch = 5 :=
  have h := RefreshToken_navigation_failure tokenService
    (refreshEnv (some "net::ERR_TIMED_OUT") [lowerCaseRequest] 9) "net::ERR_TIMED_OUT" 0
    (by decide) rfl
  ⟨h.1, h.2.1, h.2.2.1⟩

/-- C2. A `RefreshToken` call that completes navigation (it reached
`s.page.Navigate`, which returned nil, and the wait for the load event
completed) returns nil; afterwards the token record is the captured
candidate with the current time when the candidate is non-empty, and is the
prior record, value and timestamp, when nothing was captured. -/
theorem RefreshToken_commit_or_keep (s : Service) (env : RefreshEnv)
    (hreach : Event.navigate bootstrapURL ∈ (RefreshToken s env).trace)
    (hnav : env.navigate = none) (hload : env.mustWaitLoad = none) :
    (RefreshToken s env).out = .returned none ∧
    (routerCapture env.requests ≠ "" →
      (RefreshToken s env).state.xIsHuman = routerCapture env.requests ∧
      (RefreshToken s env).state.lastFetch = env.now) ∧
    (routerCapture env.requests = "" →
      (RefreshToken s env).state.xIsHuman = s.xIsHuman ∧
      (RefreshToken s env).state.lastFetch = s.lastFetch) := by
  unfold RefreshToken RefreshToken.body at *
  rcases hb : s.browser with _ | b <;> rcases hpg : s.page with _ | old <;>
  rcases h1 : env.mustPage with _ | e1 <;>
  rcases h2 : env.mustSetUserAgent with _ | e2 <;>
  rcases h3 : env.mustEvalOnNewDocument with _ | e3 <;>
  rcases h4 : env.mustAdd with _ | e4 <;>
  by_cases hc : routerCapture env.requests = "" <;>
  simp_all [Browser.newPage]

/-- C2 at a service holding `tok-1`: a refresh that intercepts `tok-2` at
instant 9 commits it, a refresh that intercepts nothing keeps the record. -/
theorem RefreshToken_commit_or_keep_witness :
    ((RefreshToken tokenService (refreshEnv none [lowerCaseRequest] 9)).out = .returned none ∧
      (RefreshToken tokenService (refreshEnv none [lowerCaseRequest] 9)).state.xIsHuman = "tok-2" ∧
      (RefreshToken tokenService (refreshEnv none [lowerCaseRequest] 9)).state.lastFetch = 9) ∧
    ((RefreshToken tokenService (refreshEnv none [] 9)).out = .returned none ∧
      (RefreshToken tokenService (refreshEnv none [] 9)).state.xIsHuman = "tok-1" ∧
      (RefreshToken tokenService (refreshEnv none [] 9)).state.lastFetch = 5) :=
  have h1 := RefreshToken_commit_or_keep tokenService (refreshEnv none [lowerCaseRequest] 9)
    (by decide) rfl rfl
  have h2 := RefreshToken_commit_or_keep tokenService (refreshEnv none [] 9) (by decide) rfl rfl
  ⟨⟨h1.1, h1.2.1 (by decide)⟩, ⟨h2.1, h2.2.2 (by decide)⟩⟩

/-- C3. `GetXIsHuman` returns exactly the stored token value and leaves the
service state unchanged; it executes `go s.RefreshToken()` if and only if
the age of the record, `now - lastFetch`, is strictly greater than 30
minutes and the stored value is non-empty; and on a service that has never
captured a value (fresh, then any number of refreshes that captured
nothing) it returns the empty string and schedules no refresh. -/
theorem GetXIsHuman_returns_record (s : Service) (now : Int) :
    (GetXIsHuman s now).out = .returned s.xIsHuman ∧
    (GetXIsHuman s now).state = s ∧
    (Event.goRefreshToken ∈ (GetXIsHuman s now).trace ↔
      (now - s.lastFetch > 30 * Minute ∧ s.xIsHuman ≠ "")) ∧
    (∀ (b : Browser) (envs : List RefreshEnv),
      (∀ env ∈ envs, routerCapture env.requests = "") →
      (GetXIsHuman (refreshAll (Service.fresh b) envs) now).out = .returned "" ∧
      Event.goRefreshToken ∉ (GetXIsHuman (refreshAll (Service.fresh b) envs) now).trace) := by
  refine ⟨rfl, rfl, ?_, ?_⟩
  · unfold GetXIsHuman needsRefresh timeSince
    by_cases h1 : timeSub now s.lastFetch > 30 * Minute <;> by_cases h2 : s.xIsHuman = "" <;>
      simp [h1, h2, (timeSub_gt_iff now s.lastFetch).symm]
  · intro b envs hall
    have h := refreshAll_keeps_empty envs (Service.fresh b) rfl hall
    unfold GetXIsHuman needsRefresh
    simp [h]

/-- C3 at a record 31 minutes old, and at a fresh service after a refresh
that captured nothing. -/
theorem GetXIsHuman_returns_record_witness :
    (GetXIsHuman tokenService (5 + 31 * Minute)).out = .returned "tok-1" ∧
    Event.goRefreshToken ∈ (GetXIsHuman tokenService (5 + 31 * Minute)).trace ∧
    (GetXIsHuman (refreshAll (Service.fresh ⟨[], 0⟩) [refreshEnv none [] 9]) 7).out
      = .returned "" ∧
    Event.goRefreshToken ∉
      (GetXIsHuman (refreshAll (Service.fresh ⟨[], 0⟩) [refreshEnv none [] 9]) 7).trace :=
  have h := GetXIsHuman_returns_record tokenService (5 + 31 * Minute)
  have h0 := (GetXIsHuman_returns_record tokenService 7).2.2.2 ⟨[], 0⟩ [refreshEnv none [] 9]
    (by decide)
  ⟨h.1, h.2.2.1.mpr (by decide), h0.1, h0.2⟩

/-! ## Request interception -/

/-- C7 (as stated, refuted). A request to `/api/chat` whose header map has
the key `X-Is-Human`, equal to `x-is-human` when letter case is ignored,
with value `tok-2`: the handler looks up the lower-case key only and records
nothing, so the candidate stays empty. -/
theorem hijackHandler_misses_canonical_case :
    "/api/chat".toList <:+: canonicalCaseRequest.url.toList ∧
    canonicalCaseRequest.headers.lookup "X-Is-Human" = some "tok-2" ∧
    equalFold "X-Is-Human" "x-is-human" = true ∧
    hijackHandler "" canonicalCaseRequest.headers = "" ∧
    routerStep "" canonicalCaseRequest ≠ "tok-2" ∧
    routerCapture [canonicalCaseRequest] = "" := by
  decide

/-- C7 (amended). For every intercepted request whose URL contains
`/api/chat` and whose header map has the key `x-is-human`, spelled exactly
so, with value `v`, the interception handler records `v` as the candidate
token, whatever the candidate was before. -/
theorem hijackHandler_records_exact_key (capturedToken : String) (r : Request) (v : String)
    (hurl : "/api/chat".toList <:+: r.url.toList)
    (hkey : r.headers.lookup "x-is-human" = some v) :
    routerStep capturedToken r = v := by
  unfold routerStep hijackHandler
  rw [(chatPattern_matches_iff r.url.toList).mpr hurl, hkey]
  rfl

/-- C7 (amended) at a request that carries the lower-case key. -/
theorem hijackHandler_records_exact_key_witness :
    routerStep "old" lowerCaseRequest = "tok-2" :=
  hijackHandler_records_exact_key "old" lowerCaseRequest "tok-2" (by decide) (by decide)

/-! ## The streaming relay -/

theorem readLoop_done (fs : List String) :
    readLoop fs .done = fs.map .goStreamCallback ++ [.goStreamDone ""] := by
  induction fs with
  | nil => rfl
  | cons c rest ih => simp [readLoop, ih]

theorem fragmentCalls_callbacks (fs : List String) (rest : List BridgeCall) :
    fragmentCalls (fs.map .goStreamCallback ++ rest) = fs ++ fragmentCalls rest := by
  induction fs with
  | nil => simp
  | cons c more ih => simp [fragmentCalls, ih]

theorem firstDone_callbacks (fs : List String) (rest : List BridgeCall) :
    firstDone (fs.map .goStreamCallback ++ rest) = firstDone rest := by
  induction fs with
  | nil => simp
  | cons c more ih => simp [firstDone, ih]

theorem take_stream_all (fs : List String) (k : Nat) (h : fs.length < k) :
    (fs.map BridgeCall.goStreamCallback ++ [BridgeCall.goStreamDone ""]).take k =
      fs.map .goStreamCallback ++ [.goStreamDone ""] := by
  apply List.take_of_length_le
  simp; omega

theorem take_stream_short (fs : List String) (k : Nat) (h : k ≤ fs.length) :
    (fs.map BridgeCall.goStreamCallback ++ [BridgeCall.goStreamDone ""]).take k =
      (fs.take k).map .goStreamCallback ++ [] := by
  rw [List.take_append_of_le_length (by simpa using h), List.map_take, List.append_nil]

/-- The host against a stream that ends cleanly. When every bridge call
has reached the host, the wait ends with the completion signal and nil, and
`onChunk` has run for the first `ran` fragments, in order, whatever `ran`
is; when the completion call has not reached the host, the timer fires and
the wait ends with the timeout error. -/
theorem awaitDone_stream (fs : List String) (k ran : Nat) :
    (fs.length < k ∧
      awaitDone (arrived (readLoop fs .done) k) ran
        = ((fs.take ran).map .onChunk ++ [.recvDone], none)) ∨
    (k ≤ fs.length ∧ (awaitDone (arrived (readLoop fs .done) k) ran).2 = some "请求超时") := by
  rw [readLoop_done]
  unfold arrived
  rcases Nat.lt_or_ge fs.length k with h | h
  · left
    refine ⟨h, ?_⟩
    rw [take_stream_all fs k h]
    simp [awaitDone, delivered, firstDone_callbacks, fragmentCalls_callbacks, firstDone,
      fragmentCalls, goStreamDone]
  · right
    refine ⟨h, ?_⟩
    rw [take_stream_short fs k h]
    have hnone := firstDone_callbacks (fs.take k) []
    simp only [awaitDone, hnone, firstDone]

/-- A streaming call that started the script returns what the wait on
`done` yields, and its trace is: open the page, navigate, evaluate, the
events of the wait, close the page. -/
theorem SendStreamRequest_started (s : Service) (req : CursorChatRequest) (env : StreamEnv)
    (hrun : Event.evaluate ∈ (SendStreamRequest s req env).trace)
    (heval : env.evaluate = none) :
    (SendStreamRequest s req env).out =
      .returned (awaitDone (arrived (streamScript env.upstream) env.served) env.ran).2 ∧
    ∃ p, (SendStreamRequest s req env).trace =
      .openPage p :: ([.navigate bootstrapURL, .evaluate] ++
        (awaitDone (arrived (streamScript env.upstream) env.served) env.ran).1 ++
          [.closePage p]) := by
  unfold SendStreamRequest at *
  rcases hb : s.browser with _ | b <;>
  rcases h1 : env.mustPage with _ | e1 <;>
  rcases h2 : env.mustSetUserAgent with _ | e2 <;>
  rcases h3 : env.mustEvalOnNewDocument with _ | e3 <;>
  rcases h4 : env.exposeCallback with _ | e4 <;>
  rcases h5 : env.exposeDone with _ | e5 <;>
  rcases h6 : env.mustNavigate with _ | e6 <;>
  rcases h7 : env.mustWaitLoad with _ | e7 <;>
  simp_all [Browser.newPage]

theorem onChunkCalls_append (t u : List Event) :
    onChunkCalls (t ++ u) = onChunkCalls t ++ onChunkCalls u := by
  induction t with
  | nil => rfl
  | cons e rest ih => cases e <;> simp [onChunkCalls, ih]

theorem onChunkCalls_map (fs : List String) : onChunkCalls (fs.map .onChunk) = fs := by
  induction fs with
  | nil => rfl
  | cons c rest ih => simp [onChunkCalls, ih]

/-- An upstream rejection with a non-empty body `b`, delivered before the
timer: the call returns the error `b` and `onChunk` is never invoked. -/
theorem SendStreamRequest_rejection_nonempty (s : Service) (req : CursorChatRequest)
    (env : StreamEnv) (r : Response) (b : String)
    (hrun : Event.evaluate ∈ (SendStreamRequest s req env).trace)
    (heval : env.evaluate = none)
    (hup : env.upstream = .resolved r) (hok : r.ok = false) (htext : r.text = .resolved b)
    (hb : b ≠ "") (hserved : 0 < env.served) :
    (SendStreamRequest s req env).out = .returned (some b) ∧
    onChunkCalls (SendStreamRequest s req env).trace = [] := by
  obtain ⟨hout, p, htr⟩ := SendStreamRequest_started s req env hrun heval
  unfold arrived at hout htr
  have hscript : streamScript env.upstream = [.goStreamDone b, .goStreamDone b] := by
    rw [hup]; simp [streamScript, onResponse, hok, htext, onCatch]
  rw [hscript] at hout htr
  obtain ⟨k, hk⟩ : ∃ k, env.served = k + 1 := ⟨env.served - 1, by omega⟩
  rw [hk] at hout htr
  simp only [List.take_succ_cons, awaitDone, firstDone] at hout htr
  refine ⟨by rw [hout]; simp [goStreamDone, hb], ?_⟩
  rw [htr]
  cases k <;> simp [onChunkCalls, delivered, fragmentCalls]

/-- C4 (the code at the failing input). Upstream status 403 with an empty
body, every bridge call served in time: the script passes the empty body to
`goStreamDone`, the bridge sends nil on `done`, and `SendStreamRequest`
returns nil, no error, with `onChunk` never invoked. -/
theorem SendStreamRequest_empty_rejection_returns_nil :
    (rejection 403 "").ok = false ∧
    streamScript (.resolved (rejection 403 ""))
      = [BridgeCall.goStreamDone "", BridgeCall.goStreamDone ""] ∧
    (SendStreamRequest sampleService sampleRequest
      (streamEnv (.resolved (rejection 403 "")) 2)).out = .returned none ∧
    onChunkCalls (SendStreamRequest sampleService sampleRequest
      (streamEnv (.resolved (rejection 403 "")) 2)).trace = [] ∧
    (SendStreamRequest sampleService sampleRequest
      (streamEnv (.resolved (rejection 403 "nope")) 2)).out = .returned (some "nope") := by
  decide

theorem doneCalls_readLoop (fs : List String) (e : StreamEnd) :
    doneCalls (readLoop fs e) = if e = .pending then 0 else 1 := by
  induction fs with
  | nil => cases e <;> simp [readLoop, doneCalls]
  | cons c rest ih => simp [readLoop, doneCalls, ih]

/-- On a failed fetch, on an OK response whose stream ends cleanly or with
a read failure, and on a rejection whose body cannot be read, the script
calls `goStreamDone` exactly once. -/
theorem streamScript_done_once (m : String) (r : Response) :
    doneCalls (streamScript (.rejected m)) = 1 ∧
    (r.ok = true → r.streamEnd ≠ .pending → doneCalls (streamScript (.resolved r)) = 1) ∧
    (r.ok = false → r.text = .rejected m → doneCalls (streamScript (.resolved r)) = 1) := by
  refine ⟨rfl, ?_, ?_⟩
  · intro hok hend
    simp [streamScript, onResponse, hok, onCatch, doneCalls_readLoop, hend]
  · intro hok htext
    simp [streamScript, onResponse, hok, htext, onCatch, doneCalls]

/-- On every upstream rejection whose body `b` is read, the script calls
`goStreamDone` twice: once in the handler of `response.text()`, and once in
the final `.catch`, which receives the error thrown right after the first
call. -/
theorem streamScript_rejection_twice (r : Response) (b : String)
    (hok : r.ok = false) (htext : r.text = .resolved b) :
    streamScript (.resolved r) = [.goStreamDone b, .goStreamDone b] := by
  simp [streamScript, onResponse, hok, htext, onCatch]

/-- C5 (the code at the failing input). Upstream status 403 with body
`nope`: the in-page script invokes `goStreamDone` twice, not once. -/
theorem streamScript_rejection_done_twice :
    streamScript (.resolved (rejection 403 "nope"))
      = [BridgeCall.goStreamDone "nope", BridgeCall.goStreamDone "nope"] ∧
    doneCalls (streamScript (.resolved (rejection 403 "nope"))) = 2 := by
  decide

/-- For every list of fragments produced by an OK upstream response
followed by a clean end of stream, a `SendStreamRequest` call that started
the script returns nil exactly when the completion call reaches the host
before the timer; `onChunk` has then run for the first `ran` fragments, in
the order of the fragments, and for all of them only if `ran` reaches
their number. -/
theorem SendStreamRequest_clean_stream (s : Service) (req : CursorChatRequest)
    (env : StreamEnv) (r : Response)
    (hrun : Event.evaluate ∈ (SendStreamRequest s req env).trace)
    (heval : env.evaluate = none)
    (hup : env.upstream = .resolved r) (hok : r.ok = true) (hend : r.streamEnd = .done) :
    (r.chunks.length < env.served →
      (SendStreamRequest s req env).out = .returned none ∧
      onChunkCalls (SendStreamRequest s req env).trace = r.chunks.take env.ran) ∧
    (env.served ≤ r.chunks.length →
      (SendStreamRequest s req env).out = .returned (some "请求超时")) := by
  obtain ⟨hout, p, htr⟩ := SendStreamRequest_started s req env hrun heval
  have hscript : streamScript env.upstream = readLoop r.chunks .done := by
    rw [hup]; simp [streamScript, onResponse, hok, hend, onCatch]
  rw [hscript] at hout htr
  rcases awaitDone_stream r.chunks env.served env.ran with ⟨hlt, hw⟩ | ⟨hle, hw⟩
  · rw [hw] at hout htr
    refine ⟨fun _ => ⟨hout, ?_⟩, fun h => absurd hlt (Nat.not_lt.mpr h)⟩
    rw [htr]
    have hsplit : (Event.openPage p ::
        ([Event.navigate bootstrapURL, Event.evaluate] ++
          ((r.chunks.take env.ran).map Event.onChunk ++ [Event.recvDone], (none : GoError)).1 ++
          [Event.closePage p]))
        = [Event.openPage p, Event.navigate bootstrapURL, Event.evaluate] ++
          ((r.chunks.take env.ran).map Event.onChunk ++ [Event.recvDone, Event.closePage p]) := by
      simp
    rw [hsplit, onChunkCalls_append, onChunkCalls_append, onChunkCalls_map]
    simp [onChunkCalls]
  · rw [hw] at hout
    exact ⟨fun h => absurd hle (Nat.not_le.mpr h), fun _ => hout⟩

/-- C6 (the code at the failing input). The upstream answers OK and
streams `a`, `b`, `c`, then ends cleanly; the script makes the calls
`goStreamCallback` of `a`, `b`, `c` and then `goStreamDone` of the empty
string, none of them awaited, and all four reach the host. The completion
bridge sends nil on `done` while the fragment bridge has run `onChunk` for
`a` and `b` only: `SendStreamRequest` returns nil with `c` not delivered.
When no fragment call has run yet, it returns nil with nothing
delivered. -/
theorem SendStreamRequest_returns_before_delivery :
    streamScript (.resolved (okStream ["a", "b", "c"]))
      = [BridgeCall.goStreamCallback "a", BridgeCall.goStreamCallback "b",
         BridgeCall.goStreamCallback "c", BridgeCall.goStreamDone ""] ∧
    (SendStreamRequest sampleService sampleRequest
      (racingEnv (.resolved (okStream ["a", "b", "c"])) 4 2)).out = .returned none ∧
    onChunkCalls (SendStreamRequest sampleService sampleRequest
      (racingEnv (.resolved (okStream ["a", "b", "c"])) 4 2)).trace = ["a", "b"] ∧
    (SendStreamRequest sampleService sampleRequest
      (racingEnv (.resolved (okStream ["a", "b", "c"])) 4 0)).out = .returned none ∧
    onChunkCalls (SendStreamRequest sampleService sampleRequest
      (racingEnv (.resolved (okStream ["a", "b", "c"])) 4 0)).trace = [] ∧
    onChunkCalls (SendStreamRequest sampleService sampleRequest
      (racingEnv (.resolved (okStream ["a", "b", "c"])) 4 3)).trace = ["a", "b", "c"] := by
  decide

/-! ## Page release -/

theorem SendRequest_pages (s : Service) (req : CursorChatRequest) (env : BufferedEnv) :
    (SendRequest s req env).state.browser.map Browser.pages = s.browser.map Browser.pages := by
  unfold SendRequest
  rcases hb : s.browser with _ | b <;>
  rcases h1 : env.mustPage with _ | e1 <;>
  rcases h2 : env.mustSetUserAgent with _ | e2 <;>
  rcases h3 : env.mustEvalOnNewDocument with _ | e3 <;>
  rcases h6 : env.mustNavigate with _ | e6 <;>
  rcases h7 : env.mustWaitLoad with _ | e7 <;>
  rcases h8 : evaluateByPromise env with e8 | v8 <;>
  simp_all [Browser.newPage, Browser.closePage]

theorem SendRequest_trace (s : Service) (req : CursorChatRequest) (env : BufferedEnv) :
    (SendRequest s req env).trace = [] ∨
      ∃ p mid, (SendRequest s req env).trace = .openPage p :: (mid ++ [.closePage p]) := by
  unfold SendRequest
  rcases hb : s.browser with _ | b <;>
  rcases h1 : env.mustPage with _ | e1 <;>
  rcases h2 : env.mustSetUserAgent with _ | e2 <;>
  rcases h3 : env.mustEvalOnNewDocument with _ | e3 <;>
  rcases h6 : env.mustNavigate with _ | e6 <;>
  rcases h7 : env.mustWaitLoad with _ | e7 <;>
  rcases h8 : evaluateByPromise env with e8 | v8 <;>
  first
    | exact Or.inl rfl
    | exact Or.inr ⟨_, _, rfl⟩

theorem SendStreamRequest_pages (s : Service) (req : CursorChatRequest) (env : StreamEnv) :
    (SendStreamRequest s req env).state.browser.map Browser.pages
      = s.browser.map Browser.pages := by
  unfold SendStreamRequest
  rcases hb : s.browser with _ | b <;>
  rcases h1 : env.mustPage with _ | e1 <;>
  rcases h2 : env.mustSetUserAgent with _ | e2 <;>
  rcases h3 : env.mustEvalOnNewDocument with _ | e3 <;>
  rcases h4 : env.exposeCallback with _ | e4 <;>
  rcases h5 : env.exposeDone with _ | e5 <;>
  rcases h6 : env.mustNavigate with _ | e6 <;>
  rcases h7 : env.mustWaitLoad with _ | e7 <;>
  rcases h8 : env.evaluate with _ | e8 <;>
  simp_all [Browser.newPage, Browser.closePage]

theorem SendStreamRequest_trace (s : Service) (req : CursorChatRequest) (env : StreamEnv) :
    (SendStreamRequest s req env).trace = [] ∨
      ∃ p mid, (SendStreamRequest s req env).trace
        = .openPage p :: (mid ++ [.closePage p]) := by
  unfold SendStreamRequest
  rcases hb : s.browser with _ | b <;>
  rcases h1 : env.mustPage with _ | e1 <;>
  rcases h2 : env.mustSetUserAgent with _ | e2 <;>
  rcases h3 : env.mustEvalOnNewDocument with _ | e3 <;>
  rcases h4 : env.exposeCallback with _ | e4 <;>
  rcases h5 : env.exposeDone with _ | e5 <;>
  rcases h6 : env.mustNavigate with _ | e6 <;>
  rcases h7 : env.mustWaitLoad with _ | e7 <;>
  rcases h8 : env.evaluate with _ | e8 <;>
  first
    | exact Or.inl rfl
    | exact Or.inr ⟨_, _, rfl⟩

theorem openPages_eq_of_pages (s t : Service)
    (h : t.browser.map Browser.pages = s.browser.map Browser.pages) :
    t.openPages = s.openPages := by
  unfold Service.openPages
  rcases hs : s.browser with _ | b <;> rcases ht : t.browser with _ | c <;> simp_all

/-- The exit paths the page release is stated for all occur: a buffered
call that succeeds, one the upstream rejects, one that times out against an
upstream that never answers, a streaming call that times out, and one whose
`Evaluate` fails; the calls that end in an error leave no page open. -/
theorem relay_exit_paths :
    (SendRequest sampleService sampleRequest
      (bufferedEnv (.resolved (okStream ["a"])) true)).out = .returned ("a", none) ∧
    (SendRequest sampleService sampleRequest
      (bufferedEnv (.resolved (rejection 403 "nope")) true)).out
        = .returned ("", some "执行失败: nope") ∧
    (SendRequest sampleService sampleRequest (bufferedEnv .pending false)).out
      = .returned ("", some "执行失败: context deadline exceeded") ∧
    (SendRequest sampleService sampleRequest (bufferedEnv .pending false)).state.openPages = 0 ∧
    (SendStreamRequest sampleService sampleRequest (streamEnv .pending 0)).out
      = .returned (some "请求超时") ∧
    (SendStreamRequest sampleService sampleRequest (streamEnv .pending 0)).state.openPages = 0 ∧
    (SendStreamRequest sampleService sampleRequest
      { streamEnv .pending 0 with evaluate := some "target closed" }).out
        = .returned (some "执行失败: target closed") ∧
    (SendStreamRequest sampleService sampleRequest
      { streamEnv .pending 0 with evaluate := some "target closed" }).state.openPages = 0 := by
  decide

/-- C8. For every `SendRequest` and every `SendStreamRequest` call, on
every exit path (return or panic, whatever the browser and the upstream
answer), the browser's open pages after the call are exactly those before
it, so their number is the same; and a call that opens a page does so as its
first effect and closes that same page as its last. -/
theorem relay_pages_released (s : Service) (req : CursorChatRequest) (envB : BufferedEnv)
    (envS : StreamEnv) :
    ((SendRequest s req envB).state.openPages = s.openPages ∧
      (SendRequest s req envB).state.browser.map Browser.pages = s.browser.map Browser.pages ∧
      ((SendRequest s req envB).trace = [] ∨
        ∃ p mid, (SendRequest s req envB).trace = .openPage p :: (mid ++ [.closePage p]))) ∧
    ((SendStreamRequest s req envS).state.openPages = s.openPages ∧
      (SendStreamRequest s req envS).state.browser.map Browser.pages
        = s.browser.map Browser.pages ∧
      ((SendStreamRequest s req envS).trace = [] ∨
        ∃ p mid, (SendStreamRequest s req envS).trace
          = .openPage p :: (mid ++ [.closePage p]))) :=
  ⟨⟨openPages_eq_of_pages _ _ (SendRequest_pages s req envB), SendRequest_pages s req envB,
      SendRequest_trace s req envB⟩,
    ⟨openPages_eq_of_pages _ _ (SendStreamRequest_pages s req envS),
      SendStreamRequest_pages s req envS, SendStreamRequest_trace s req envS⟩⟩

/-- C9. When the browser handle is nil, `SendRequest` returns the empty
body with a non-nil error and `SendStreamRequest` returns a non-nil error,
each before any effect: the trace is empty (no page is opened, `onChunk` is
never invoked) and the service state is unchanged. -/
theorem relay_nil_browser_fails_fast (s : Service) (req : CursorChatRequest)
    (envB : BufferedEnv) (envS : StreamEnv) (hnil : s.browser = none) :
    (SendRequest s req envB).out = .returned ("", some "浏览器未初始化") ∧
    (SendRequest s req envB).trace = [] ∧
    (SendRequest s req envB).state = s ∧
    (SendStreamRequest s req envS).out = .returned (some "浏览器未初始化") ∧
    (SendStreamRequest s req envS).trace = [] ∧
    onChunkCalls (SendStreamRequest s req envS).trace = [] ∧
    (SendStreamRequest s req envS).state = s := by
  unfold SendRequest SendStreamRequest
  simp [hnil, onChunkCalls]

/-- C9 at the service as `&Service{}` leaves it. -/
theorem relay_nil_browser_fails_fast_witness :
    (SendRequest Service.zero sampleRequest
      (bufferedEnv (.resolved (okStream ["a"])) true)).out
        = .returned ("", some "浏览器未初始化") ∧
    (SendStreamRequest Service.zero sampleRequest
      (streamEnv (.resolved (okStream ["a"])) 2)).out = .returned (some "浏览器未初始化") ∧
    (SendStreamRequest Service.zero sampleRequest
      (streamEnv (.resolved (okStream ["a"])) 2)).trace = [] :=
  have h := relay_nil_browser_fails_fast Service.zero sampleRequest
    (bufferedEnv (.resolved (okStream ["a"])) true)
    (streamEnv (.resolved (okStream ["a"])) 2) rfl
  ⟨h.1, h.2.2.2.1, h.2.2.2.2.1⟩

/-! ## Lock protocol -/

theorem lockInv_init : LockInv Sys.init := by
  simp [LockInv, Sys.init, RefreshPc.holdsLock]

theorem lockInv_step (st st1 : Sys) (a : Action) (h : LockInv st)
    (hs : step st a = some st1) : LockInv st1 := by
  obtain ⟨⟨w, n⟩, pc, rd⟩ := st
  obtain ⟨hw, hr, hwr⟩ := h
  cases a with
  | refresh navOk =>
    cases pc <;> cases rd <;> cases w <;> cases navOk <;>
      simp_all [step, canLock, LockInv, RefreshPc.holdsLock] <;>
      (subst hs; simp_all)
  | reader =>
    cases pc <;> cases rd <;> cases w <;>
      simp_all [step, canRLock, LockInv, RefreshPc.holdsLock] <;>
      (subst hs; simp_all)

theorem lockInv_run (sched : List Action) :
    ∀ st st1 : Sys, LockInv st → runSchedule st sched = some st1 → LockInv st1 := by
  induction sched with
  | nil =>
    intro st st1 h hr
    simp only [runSchedule, Option.some.injEq] at hr
    exact hr ▸ h
  | cons a rest ih =>
    intro st st1 h hr
    simp only [runSchedule] at hr
    rcases hstep : step st a with _ | st2
    · rw [hstep] at hr; simp at hr
    · rw [hstep] at hr
      exact ih st2 st1 (lockInv_step st st2 a h hstep) hr

/-- Every reachable state satisfies the lock invariant. -/
theorem lockInv_reachable (st : Sys) (h : Reachable st) : LockInv st := by
  obtain ⟨sched, hs⟩ := h
  exact lockInv_run sched Sys.init st lockInv_init hs

/-- C10 (as stated, refuted). After the refresh has taken the lock and
started navigating, a state the schedule `refresh, refresh` reaches, the
shared lock cannot be taken: a reader that calls `RLock` waits, and
scheduling it again finds it blocked. -/
theorem reader_blocked_during_navigation :
    runSchedule Sys.init [.refresh true, .refresh true] = some navigatingSys ∧
    navigatingSys.refresh.inFlight = true ∧
    canRLock navigatingSys = false ∧
    step navigatingSys .reader = some { navigatingSys with reader := .waitRLock } ∧
    runSchedule Sys.init [.refresh true, .refresh true, .reader, .reader] = none := by
  decide

/-- C10 (amended). A `RefreshToken` call holds the exclusive lock from
entry to return: in every reachable state where a refresh is navigating,
settling, probing the UI or waiting out the capture window, the shared lock
cannot be taken and a reader waiting in `RLock` is blocked; in every
reachable state where no refresh holds or awaits the lock, the shared lock
can be taken. -/
theorem reader_waits_for_refresh (st : Sys) (hreach : Reachable st) :
    (st.refresh.inFlight = true →
      canRLock st = false ∧ step { st with reader := .waitRLock } .reader = none) ∧
    (st.refresh = .idle → canRLock st = true) := by
  obtain ⟨hw, hr, hwr⟩ := lockInv_reachable st hreach
  obtain ⟨⟨w, n⟩, pc, rd⟩ := st
  cases pc <;> simp_all [RefreshPc.inFlight, RefreshPc.holdsLock, canRLock, step]

/-- C10 (amended) at the state in which the refresh navigates, and at the
initial state. -/
theorem reader_waits_for_refresh_witness :
    canRLock navigatingSys = false ∧
    step { navigatingSys with reader := .waitRLock } .reader = none ∧
    canRLock Sys.init = true :=
  have h := reader_waits_for_refresh navigatingSys ⟨[.refresh true, .refresh true], by decide⟩
  have h0 := reader_waits_for_refresh Sys.init ⟨[], rfl⟩
  ⟨(h.1 (by decide)).1, (h.1 (by decide)).2, h0.2 rfl⟩

/-! ## The tool-call protocol server -/

/-- C11. For every JSON-RPC request, `handleRequest` writes nothing and
leaves the server as it was when the method is `initialized`; and when the
method is none of `initialize`, `initialized`, `tools/list`, `tools/call`,
`ping`, it writes exactly one response, the one `sendError` builds: its
document has `jsonrpc` `2.0`, the request's id, no `result` member, and an
`error` member with code -32601, message `Method not found` and the
method name as data. -/
theorem handleRequest_initialized_and_unknown (s : Server) (req : JSONRPCRequest) :
    (req.Method = "initialized" → s.handleRequest req = s) ∧
    (req.Method ∉ knownMethods →
      s.handleRequest req = s.sendResponse
        { JSONRPC := "2.0", ID := req.ID, Result := none,
          Error := some { Code := -32601, Message := "Method not found",
                          Data := some (.string req.Method) } } ∧
      (s.handleRequest req).output = s.output ++
        [.object [("jsonrpc", .string "2.0"), ("id", req.ID),
          ("error", .object [("code", .number (-32601)),
            ("message", .string "Method not found"), ("data", .string req.Method)])]]) := by
  constructor
  · intro h
    simp [Server.handleRequest, h]
  · intro h
    simp only [knownMethods, List.mem_cons, List.mem_singleton, List.not_mem_nil, or_false,
      not_or] at h
    obtain ⟨h1, h2, h3, h4, h5⟩ := h
    simp [Server.handleRequest, h1, h2, h3, h4, h5, Server.sendError, Server.sendResponse,
      JSONRPCResponse.toJSON, RPCError.toJSON]

/-- C11 at an `initialized` notification, at the method `resources/list`
with id 7, and at the empty method name. -/
theorem handleRequest_initialized_and_unknown_witness :
    (sampleServer.handleRequest
      { JSONRPC := "2.0", ID := .null, Method := "initialized", Params := "" }).output = [] ∧
    (sampleServer.handleRequest
      { JSONRPC := "2.0", ID := .number 7, Method := "resources/list", Params := "" }).output
      = [.object [("jsonrpc", .string "2.0"), ("id", .number 7),
          ("error", .object [("code", .number (-32601)),
            ("message", .string "Method not found"),
            ("data", .string "resources/list")])]] ∧
    (sampleServer.handleRequest
      { JSONRPC := "2.0", ID := .string "a", Method := "", Params := "" }).output
      = [.object [("jsonrpc", .string "2.0"), ("id", .string "a"),
          ("error", .object [("code", .number (-32601)),
            ("message", .string "Method not found"), ("data", .string "")])]] :=
  ⟨congrArg Server.output
      ((handleRequest_initialized_and_unknown sampleServer
        { JSONRPC := "2.0", ID := .null, Method := "initialized", Params := "" }).1 rfl),
    ((handleRequest_initialized_and_unknown sampleServer
        { JSONRPC := "2.0", ID := .number 7, Method := "resources/list", Params := "" }).2
      (by decide)).2,
    ((handleRequest_initialized_and_unknown sampleServer
        { JSONRPC := "2.0", ID := .string "a", Method := "", Params := "" }).2
      (by decide)).2⟩

/-- The methods with a case of their own each write exactly one response,
a result with the request's id. -/
theorem handleRequest_ping (s : Server) (req : JSONRPCRequest) (h : req.Method = "ping") :
    (s.handleRequest req).output = s.output ++
      [.object [("jsonrpc", .string "2.0"), ("id", req.ID), ("result", .object [])]] := by
  simp [Server.handleRequest, h, Server.sendResult, Server.sendResponse,
    JSONRPCResponse.toJSON, ResultValue.toJSON]

/-! ## Command extraction -/

/-- Replacing a one-character `old` rewrites the text character by
character. -/
theorem replaceAux_single (q : Char) (new s : List Char) :
    replaceAux [q] new 0 s = s.flatMap (fun c => if c = q then new else [c]) := by
  induction s with
  | nil => rfl
  | cons c rest ih =>
    by_cases h : c = q
    · subst h
      simp [replaceAux, List.isPrefixOf, ih]
    · have h2 : ¬ q = c := fun e => h e.symm
      simp [replaceAux, List.isPrefixOf, ih, h, h2]

/-- The two replacements put one backslash in front of every double quote
and every dollar sign and change nothing else. -/
theorem escapeContent_toList (content : String) :
    (escapeContent content).toList = content.toList.flatMap escapeChar := by
  unfold escapeContent ReplaceAll
  have h1 : ("\"" : String) ≠ "" := by decide
  have h2 : ("$" : String) ≠ "" := by decide
  rw [if_neg h1, if_neg h2]
  show replaceAux ['$'] ['\\', '$'] 0 (replaceAux ['"'] ['\\', '"'] 0 content.toList) = _
  rw [replaceAux_single, replaceAux_single]
  induction content.toList with
  | nil => rfl
  | cons c rest ih =>
    simp only [List.flatMap_cons, List.flatMap_append, ih]
    congr 1
    unfold escapeChar
    by_cases hq : c = '"'
    · subst hq; decide
    · by_cases hd : c = '$'
      · subst hd; decide
      · simp [hq, hd]

theorem escapedFrom_flatMap (l : List Char) :
    ∀ run : Nat, escapedFrom run (l.flatMap escapeChar) = plainFrom run l := by
  induction l with
  | nil => intro run; rfl
  | cons c rest ih =>
    intro run
    simp only [List.flatMap_cons]
    by_cases hq : c = '"'
    · subst hq
      have : escapeChar '"' = ['\\', '"'] := by decide
      rw [this]
      have hpar : ((run + 1) % 2 = 1) ↔ (run % 2 = 0) := by omega
      simp [escapedFrom, plainFrom, ih, hpar]
    · by_cases hd : c = '$'
      · subst hd
        have : escapeChar '$' = ['\\', '$'] := by decide
        rw [this]
        have hpar : ((run + 1) % 2 = 1) ↔ (run % 2 = 0) := by omega
        simp [escapedFrom, plainFrom, ih, hpar]
      · have : escapeChar c = [c] := by simp [escapeChar, hq, hd]
        rw [this]
        by_cases hb : c = '\\'
        · simp [escapedFrom, plainFrom, ih, hb]
        · simp [escapedFrom, plainFrom, ih, hb, hq, hd]

/-- The escaped content has an odd run of backslashes in front of every
double quote and dollar sign exactly when the content itself has an even
run, possibly empty, in front of every one of its own. -/
theorem wellEscaped_escapeContent (content : String) :
    wellEscaped (escapeContent content) = plainFrom 0 content.toList := by
  unfold wellEscaped
  rw [escapeContent_toList, escapedFrom_flatMap]

theorem plainFrom_no_backslash (l : List Char) (h : '\\' ∉ l) : plainFrom 0 l = true := by
  induction l with
  | nil => rfl
  | cons c rest ih =>
    have hc : c ≠ '\\' := fun e => h (e ▸ List.mem_cons_self _ _)
    have hrest : '\\' ∉ rest := fun m => h (List.mem_cons_of_mem _ m)
    by_cases hq : c = '"' ∨ c = '$'
    · simp [plainFrom, hc, hq, ih hrest]
    · simp [plainFrom, hc, hq, ih hrest]

/-- For every response from which `ExtractToolCallFromJSON` yields a
`write_file` or `write_to_file` call with non-empty path and content,
`ExtractCommandFromRefusal` returns the `echo` command over the escaped
content and the path; the escaped content is well escaped exactly when
every double quote and dollar sign of the content follows an even run of
backslashes, in particular when the content has no backslash. -/
theorem ExtractCommandFromRefusal_write_file (unmarshal : String → Option ToolCallFromJSON)
    (response : String) (tc : ToolCallFromJSON)
    (hcall : ExtractToolCallFromJSON unmarshal response = some tc)
    (htool : tc.Tool = "write_file" ∨ tc.Tool = "write_to_file")
    (hpath : tc.Path ≠ "") (hcontent : tc.Content ≠ "") :
    ExtractCommandFromRefusal unmarshal response
      = "echo \"" ++ escapeContent tc.Content ++ "\" > \"" ++ tc.Path ++ "\"" ∧
    wellEscaped (escapeContent tc.Content) = plainFrom 0 tc.Content.toList ∧
    ('\\' ∉ tc.Content.toList → wellEscaped (escapeContent tc.Content) = true) := by
  refine ⟨?_, wellEscaped_escapeContent tc.Content, fun h => ?_⟩
  · simp [ExtractCommandFromRefusal, commandOfToolCall, hcall, htool, hpath, hcontent]
  · rw [wellEscaped_escapeContent]
    exact plainFrom_no_backslash _ h

set_option maxRecDepth 4000 in
/-- A content with a double quote and a dollar sign and no backslash is
escaped as the comment of line 172 intends. -/
theorem ExtractCommandFromRefusal_quote_dollar :
    ExtractCommandFromRefusal flatUnmarshal quoteDollarResponse
      = "echo \"say \\\"hi\\\" to \\$USER\" > \"a.txt\"" ∧
    wellEscaped (escapeContent "say \"hi\" to $USER") = true := by
  decide

/-- The fallbacks of lines 184-218 at a fenced block, at a command line, and
at a text with neither. -/
theorem ExtractCommandFromRefusal_fallbacks :
    ExtractCommandFromRefusal flatUnmarshal "try:\n\x60\x60\x60bash\nls -la\n\x60\x60\x60\n"
      = "ls -la" ∧
    ExtractCommandFromRefusal flatUnmarshal "You can run\n  echo hi > out.txt  \nok"
      = "echo hi > out.txt" ∧
    ExtractCommandFromRefusal flatUnmarshal "nothing here" = "" := by
  decide

/-- C12 (the code at the failing input). The response carries a
`write_file` call with path `f` and the content backslash, double quote.
`ExtractToolCallFromJSON` yields that call, and `ExtractCommandFromRefusal`
returns `echo "\\"" > "f"`: the replacement put one backslash in front of
the quote and left the content's own backslash alone, so the quote follows
two backslashes, an even number, and the escaped content is not well
escaped. -/
theorem ExtractCommandFromRefusal_backslash_quote :
    ExtractToolCallFromJSON flatUnmarshal backslashQuoteResponse
      = some { Tool := "write_file", Path := "f", Content := "\\\"", Command := "" } ∧
    ExtractCommandFromRefusal flatUnmarshal backslashQuoteResponse
      = "echo \"\\\\\"\" > \"f\"" ∧
    escapeContent "\\\"" = "\\\\\"" ∧
    wellEscaped (escapeContent "\\\"") = false := by
  decide

end Cursor2Api
